import Mathlib

/-!
Verification development for the ScummVM StuffIt archive reader
(`common/compression/stuffit.cpp`): container parsing, the method-0/13/14
fork decompressors, CRC checking and the archive facade, shallowly embedded.
C arrays are modelled as functions `Nat → α` updated pointwise, machine
integers as `Nat` with explicit `% 2^w` where overflow can matter, and the
imperative loops as structurally recursive functions (with an explicit fuel
argument where the source loop's termination is data-dependent).
-/

namespace StuffIt

/-- Point update of a `Nat`-indexed table (models a C array store). -/
def upd {α : Type} (f : Nat → α) (i : Nat) (v : α) : Nat → α :=
  fun k => if k = i then v else f k

/-- Modelled from the spec: `Common::BitStream8LSB` (common/bitstream.h is not
under src/); §4.1 BitReader. LSB-first bit reader: `pos` counts bits consumed
so far, `rest` holds the remaining bits of the stream; reads past the end of
the stream zero-pad. -/
structure Bits where
  pos : Nat
  rest : List Bool
deriving DecidableEq

/-- Value of an LSB-first bit list (the head is bit 0). -/
def bitsVal : List Bool → Nat
  | [] => 0
  | b :: bs => (if b then 1 else 0) + 2 * bitsVal bs

def Bits.peek (b : Bits) (n : Nat) : Nat := bitsVal (b.rest.take n)

def Bits.skip (b : Bits) (n : Nat) : Bits := ⟨b.pos + n, b.rest.drop n⟩

def Bits.get (b : Bits) (n : Nat) : Nat × Bits := (b.peek n, b.skip n)

def Bits.get1 (b : Bits) : Nat × Bits := (b.peek 1, b.skip 1)

def Bits.eos (b : Bits) : Bool := b.rest.isEmpty

/-- The `ALIGN_BITS` macro of stuffit.cpp: skip to the next byte boundary. -/
def Bits.align (b : Bits) : Bits := if b.pos % 8 = 0 then b else b.skip (8 - b.pos % 8)

/-- Bits of one byte, LSB first. -/
def byteBits (v : Nat) : List Bool := (List.range 8).map (fun i => v.testBit i)

/-- A byte stream viewed as an LSB-first bit stream. -/
def bitsOfBytes (bs : List Nat) : Bits := ⟨0, (bs.map byteBits).flatten⟩

/-- Modelled from the spec: `Common::CRC16::crcFast` (common/crc.h is not under
src/); §4.2 CRC16: reflected polynomial 0xA001, init 0, no final xor, LSB-first
byte feed. One byte step. -/
def crc16Step (c b : Nat) : Nat :=
  (List.range 8).foldl
    (fun c _ => if c % 2 = 1 then (c / 2) ^^^ 0xA001 else c / 2)
    (c ^^^ (b % 256))

/-- CRC-16 of a byte list. -/
def crc16 (bytes : List Nat) : Nat := bytes.foldl crc16Step 0

/-- Big-endian 16-bit read at byte offset `i` (out-of-range bytes read as 0). -/
def be16 (h : List Nat) (i : Nat) : Nat := 256 * h.getD i 0 + h.getD (i + 1) 0

/-- Big-endian 32-bit read at byte offset `i`. -/
def be32 (h : List Nat) (i : Nat) : Nat :=
  16777216 * h.getD i 0 + 65536 * h.getD (i + 1) 0 + 256 * h.getD (i + 2) 0 + h.getD (i + 3) 0

/-- One fork of a StuffIt entry (`StuffItArchive::FileEntryFork`; its
constructor zero-initializes every field). -/
structure ForkDesc where
  uncompressedSize : Nat
  compressedSize : Nat
  offset : Nat
  crc : Nat
  compression : Nat
deriving DecidableEq

def ForkDesc.empty : ForkDesc := ⟨0, 0, 0, 0, 0⟩

/-- `StuffItArchive::FileEntry`: both forks of a file. -/
structure FileEntry where
  dataFork : ForkDesc
  resFork : ForkDesc
deriving DecidableEq

def FileEntry.empty : FileEntry := ⟨ForkDesc.empty, ForkDesc.empty⟩

/-- A Mac path: colon-separated name components (`Common::Path` built with
separator ':'). -/
abbrev MacPath := List (List Char)

/-- Case-insensitive character comparison (`Common::Path::IgnoreCase`). -/
def ciEq (a b : Char) : Bool := a.toLower == b.toLower

def strCI (a b : List Char) : Bool :=
  a.length == b.length && (List.zip a b).all (fun p => ciEq p.1 p.2)

def pathCI (p q : MacPath) : Bool :=
  p.length == q.length && (List.zip p q).all (fun x => strCI x.1 x.2)

/-- `StuffItArchive::_map` (a case-insensitive path-keyed hash map). -/
abbrev FileMap := List (MacPath × FileEntry)

/-- `StuffItArchive::_metadataMap`; the values are raw 16-byte
`MacFinderInfoData` records. -/
abbrev MetaMap := List (MacPath × List Nat)

def lookupP {α : Type} : List (MacPath × α) → MacPath → Option α
  | [], _ => none
  | (k, v) :: t, q => if pathCI k q then some v else lookupP t q

/-- `_map[path]` access followed by field updates: find the entry, creating a
default-constructed one when absent (HashMap `operator[]` semantics), and
modify it. -/
def mapModify : FileMap → MacPath → (FileEntry → FileEntry) → FileMap
  | [], k, f => [(k, f FileEntry.empty)]
  | (k', v) :: t, k, f =>
    if pathCI k' k then (k', f v) :: t else (k', v) :: mapModify t k f

/-- `_metadataMap[path] = v`. -/
def metaSet : MetaMap → MacPath → List Nat → MetaMap
  | [], k, v => [(k, v)]
  | (k', v') :: t, k, v =>
    if pathCI k' k then (k', v) :: t else (k', v') :: metaSet t k v

/-- Split a character list at ':' (model of `Common::Path(name, ':')`). -/
def splitCol : List Char → MacPath
  | [] => [[]]
  | c :: t =>
    let r := splitCol t
    if c = ':' then [] :: r
    else (c :: r.headD []) :: r.tail

/-- Last index `i ≤ upTo` holding ':' (models `String::rfind(':', upTo)`). -/
def rfindColon (cs : List Char) : Nat → Option Nat
  | 0 => if cs.getD 0 'a' = ':' then some 0 else none
  | n + 1 => if cs.getD (n + 1) 'a' = ':' then some (n + 1) else rfindColon cs n

/-- End-of-folder handling of the folder-prefix string (stuffit.cpp lines
221-233): drop the last pushed `name + ":"` component. -/
def popDirPre (p : List Char) : List Char :=
  if p.length = 0 then p
  else
    match (if 1 < p.length then rfindColon p (p.length - 2) else none) with
    | none => []
    | some i => p.take (i + 1)

/-- The 112-byte entry header read at stream position `pos`. A short read
leaves the C++ buffer's tail indeterminate; it is modelled as zero-padded
(claims are only instantiated on streams long enough for full reads). -/
def headerAt (stream : List Nat) (pos : Nat) : List Nat := (stream.drop pos).take 112

inductive OpenErr
  | nameTooLong
  | headerCrc
deriving DecidableEq

/-- State of the entry loop in `StuffItArchive::open`. -/
structure ParseState where
  pos : Nat
  dirPre : List Char
  map : FileMap
  meta : MetaMap
deriving DecidableEq

/-- Result of one entry-loop iteration or of the whole loop. -/
inductive PResult
  | err (e : OpenErr)
  | ok (st : ParseState)
deriving DecidableEq

/-- One iteration of the entry loop in `StuffItArchive::open` (lines 168-272):
read one 112-byte header, check the name length and the header CRC, then
dispatch on `dataForkCompression & 0x6F` (folder start / folder end / file). -/
def openStep (flatten : Bool) (stream : List Nat) (st : ParseState) : PResult :=
  let h := headerAt stream st.pos
  let resForkCompression := h.getD 0 0
  let dataForkCompression := h.getD 1 0
  let fileNameLength := h.getD 2 0
  if 31 < fileNameLength then .err .nameTooLong
  else
    let name := ((h.drop 3).take fileNameLength).map (fun b => Char.ofNat b)
    -- Modelled from the spec: `MacFinderInfo::toData` (common/macresman.h is
    -- not under src/); §3 Finder info: 16 bytes laid out as type(4),
    -- creator(4), flags(2) and six further bytes the parser leaves zero.
    let finfo := (h.drop 66).take 10 ++ List.replicate 6 0
    let resForkUncompressedSize := be32 h 84
    let dataForkUncompressedSize := be32 h 88
    let resForkCompressedSize := be32 h 92
    let dataForkCompressedSize := be32 h 96
    let resForkCRC := be16 h 100
    let dataForkCRC := be16 h 102
    let headerCRC := be16 h 110
    if crc16 (h.take 110) ≠ headerCRC then .err .headerCrc
    else
      let dirCheckMethod := dataForkCompression &&& 0x6F
      if dirCheckMethod = 32 then
        .ok ⟨st.pos + 112, if flatten then st.dirPre else st.dirPre ++ name ++ [':'],
             st.map, st.meta⟩
      else if dirCheckMethod = 33 then
        .ok ⟨st.pos + 112, if flatten then st.dirPre else popDirPre st.dirPre,
             st.map, st.meta⟩
      else
        let fullName := if flatten then name else st.dirPre ++ name
        let path := splitCol fullName
        let meta' := metaSet st.meta path finfo
        let payloadPos := st.pos + 112
        let map1 :=
          if dataForkUncompressedSize ≠ 0 then
            mapModify st.map path (fun e =>
              ⟨⟨dataForkUncompressedSize, dataForkCompressedSize,
                payloadPos + resForkCompressedSize, dataForkCRC, dataForkCompression⟩,
               e.resFork⟩)
          else st.map
        let map2 :=
          if resForkUncompressedSize ≠ 0 then
            mapModify map1 path (fun e =>
              ⟨e.dataFork,
               ⟨resForkUncompressedSize, resForkCompressedSize, payloadPos,
                resForkCRC, resForkCompression⟩⟩)
          else map1
        .ok ⟨payloadPos + dataForkCompressedSize + resForkCompressedSize,
             st.dirPre, map2, meta'⟩

/-- The entry loop of `StuffItArchive::open` (line 168; the `!eos()` conjunct
is subsumed by `pos < size` since `eos` only becomes true after a read past
the end, which `pos < size` rules out). `none` means the fuel ran out, an
artifact of the embedding; callers pass more fuel than the loop can use. -/
def openLoop (flatten : Bool) (stream : List Nat) (archiveSize : Nat) :
    Nat → ParseState → Option PResult
  | 0, _ => none
  | fuel + 1, st =>
    if st.pos < stream.length ∧ st.pos < archiveSize then
      match openStep flatten stream st with
      | .err e => some (.err e)
      | .ok st' => openLoop flatten stream archiveSize fuel st'
    else some (.ok st)

/-- The accepted container magics (`s_magicNumbers`). -/
def magicList : List Nat :=
  [0x53495421, 0x53543635, 0x53543530, 0x53543630, 0x5354696E,
   0x53546932, 0x53546933, 0x53546934, 0x53543436]

inductive OpenResult
  | failed
  | fatal (e : OpenErr)
  | opened (map : FileMap) (meta : MetaMap)
deriving DecidableEq

/-- `StuffItArchive::open(stream, flattenTree)` from the first magic check
down to the end of the entry loop. `meta0` is the metadata map the archive
object already holds when `open` is called (the source only ever inserts into
`_metadataMap`, it is not cleared by `close`). -/
def stuffOpenStream (stream : List Nat) (flatten : Bool) (meta0 : MetaMap) :
    Option OpenResult :=
  let tag := be32 stream 0
  if (magicList.contains tag) = false then some .failed
  else
    let archiveSize := be32 stream 6
    if be32 stream 10 ≠ 0x724C6175 then some .failed
    else
      match openLoop flatten stream archiveSize (stream.length + 1) ⟨22, [], [], meta0⟩ with
      | none => none
      | some (.err e) => some (.fatal e)
      | some (.ok st) => some (.opened st.map st.meta)

/-- The mutable state of a `StuffItArchive` object. -/
structure ArchObj where
  stream : Option (List Nat)
  map : FileMap
  meta : MetaMap
  flatten : Bool
deriving DecidableEq

/-- `StuffItArchive::close` (lines 277-281): deletes the stream and clears
`_map`; `_metadataMap` is left untouched. -/
def archClose (a : ArchObj) : ArchObj := ⟨none, [], a.meta, a.flatten⟩

inductive OpenOutcome
  | fatal (e : OpenErr)
  | done (a : ArchObj) (ok : Bool)
deriving DecidableEq

/-- `StuffItArchive::open(stream, flattenTree)` acting on the archive object:
calls `close()` first, stores the stream and flag, and parses. A magic
mismatch calls `close()` again and returns false; a fatal `error()` aborts. -/
def archOpen (a : ArchObj) (s : Option (List Nat)) (flatten : Bool) : Option OpenOutcome :=
  let a1 := archClose a
  let a2 : ArchObj := ⟨s, a1.map, a1.meta, flatten⟩
  match s with
  | none => some (.done a2 false)
  | some bytes =>
    match stuffOpenStream bytes flatten a2.meta with
    | none => none
    | some .failed => some (.done (archClose a2) false)
    | some (.fatal e) => some (.fatal e)
    | some (.opened mp mt) => some (.done ⟨some bytes, mp, mt, flatten⟩ true)

/-- `readContentsForPathAltStream` with `AltStreamType::MacFinderInfo`
(lines 303-311): a copy of the 16-byte record when present. -/
def readFinderInfo (a : ArchObj) (p : MacPath) : Option (List Nat) :=
  lookupP a.meta p

/-- `StuffItArchive::hasFile`. -/
def hasFileA (a : ArchObj) (p : MacPath) : Bool := (lookupP a.map p).isSome


/-- The 1655 packed nibbles of the five static profiles
(`SIT13Static`). -/
def SIT13Static : List Nat :=
  [0xB8, 0x98, 0x78, 0x77, 0x75, 0x97, 0x76, 0x87, 0x77, 0x77, 0x77, 0x78, 0x67, 0x87, 0x68, 0x67, 0x3B, 0x77, 0x78, 0x67,
   0x77, 0x77, 0x77, 0x59, 0x76, 0x87, 0x77, 0x77, 0x77, 0x77, 0x77, 0x77, 0x76, 0x87, 0x67, 0x87, 0x77, 0x77, 0x75, 0x88,
   0x59, 0x75, 0x79, 0x77, 0x78, 0x68, 0x77, 0x67, 0x73, 0xB6, 0x65, 0xB6, 0x76, 0x97, 0x67, 0x47, 0x9A, 0x2A, 0x4A, 0x87,
   0x77, 0x78, 0x67, 0x86, 0x78, 0x77, 0x77, 0x77, 0x68, 0x77, 0x77, 0x77, 0x68, 0x77, 0x77, 0x77, 0x77, 0x77, 0x77, 0x77,
   0x68, 0x77, 0x77, 0x77, 0x67, 0x87, 0x77, 0x77, 0x77, 0x77, 0x77, 0x77, 0x77, 0x68, 0x77, 0x77, 0x68, 0x77, 0x77, 0x77,
   0x77, 0x77, 0x77, 0x77, 0x77, 0x77, 0x77, 0x77, 0x77, 0x77, 0x77, 0x77, 0x68, 0x77, 0x77, 0x77, 0x77, 0x77, 0x67, 0x87,
   0x68, 0x77, 0x77, 0x77, 0x68, 0x77, 0x68, 0x63, 0x86, 0x7A, 0x87, 0x77, 0x77, 0x87, 0x76, 0x87, 0x77, 0x77, 0x77, 0x77,
   0x77, 0x77, 0x77, 0x77, 0x77, 0x76, 0x86, 0x77, 0x86, 0x86, 0x86, 0x86, 0x87, 0x76, 0x86, 0x87, 0x67, 0x74, 0xA7, 0x86,
   0x36, 0x88, 0x78, 0x76, 0x87, 0x76, 0x96, 0x87, 0x77, 0x84, 0xA6, 0x86, 0x87, 0x76, 0x92, 0xB5, 0x94, 0xA6, 0x96, 0x85,
   0x78, 0x75, 0x96, 0x86, 0x86, 0x75, 0xA7, 0x67, 0x87, 0x85, 0x87, 0x85, 0x95, 0x77, 0x77, 0x85, 0xA3, 0xA7, 0x93, 0x87,
   0x86, 0x94, 0x85, 0xA8, 0x67, 0x85, 0xA5, 0x95, 0x86, 0x68, 0x67, 0x77, 0x96, 0x78, 0x75, 0x86, 0x77, 0xA5, 0x67, 0x87,
   0x85, 0xA6, 0x75, 0x96, 0x85, 0x87, 0x95, 0x95, 0x87, 0x86, 0x94, 0xA5, 0x86, 0x85, 0x87, 0x86, 0x86, 0x86, 0x86, 0x77,
   0x67, 0x76, 0x66, 0x9A, 0x75, 0xA5, 0x94, 0x97, 0x76, 0x96, 0x76, 0x95, 0x86, 0x77, 0x86, 0x87, 0x75, 0xA5, 0x96, 0x85,
   0x86, 0x96, 0x86, 0x86, 0x85, 0x96, 0x86, 0x76, 0x95, 0x86, 0x95, 0x95, 0x95, 0x87, 0x76, 0x87, 0x76, 0x96, 0x85, 0x78,
   0x75, 0xA6, 0x85, 0x86, 0x95, 0x86, 0x95, 0x86, 0x45, 0x69, 0x78, 0x77, 0x87, 0x67, 0x69, 0x58, 0x79, 0x68, 0x78, 0x87,
   0x78, 0x66, 0x88, 0x68, 0x68, 0x77, 0x76, 0x87, 0x68, 0x68, 0x69, 0x58, 0x5A, 0x4B, 0x76, 0x88, 0x69, 0x67, 0xA7, 0x70,
   0x9F, 0x90, 0xA4, 0x84, 0x77, 0x77, 0x77, 0x89, 0x17, 0x77, 0x7B, 0xA7, 0x86, 0x87, 0x77, 0x68, 0x68, 0x69, 0x67, 0x78,
   0x77, 0x78, 0x76, 0x87, 0x77, 0x76, 0x73, 0xB6, 0x87, 0x96, 0x66, 0x87, 0x76, 0x85, 0x87, 0x78, 0x77, 0x77, 0x86, 0x77,
   0x86, 0x78, 0x66, 0x76, 0x77, 0x87, 0x86, 0x78, 0x76, 0x76, 0x86, 0xA5, 0x67, 0x97, 0x77, 0x87, 0x87, 0x76, 0x66, 0x59,
   0x67, 0x59, 0x77, 0x6A, 0x65, 0x86, 0x78, 0x94, 0x77, 0x88, 0x77, 0x78, 0x86, 0x86, 0x76, 0x88, 0x76, 0x87, 0x67, 0x87,
   0x77, 0x77, 0x76, 0x87, 0x86, 0x77, 0x77, 0x77, 0x86, 0x86, 0x76, 0x96, 0x77, 0x77, 0x76, 0x78, 0x86, 0x86, 0x86, 0x95,
   0x86, 0x96, 0x85, 0x95, 0x86, 0x87, 0x75, 0x88, 0x77, 0x87, 0x57, 0x78, 0x76, 0x86, 0x76, 0x96, 0x86, 0x87, 0x76, 0x87,
   0x86, 0x76, 0x77, 0x86, 0x78, 0x78, 0x57, 0x87, 0x86, 0x76, 0x85, 0xA5, 0x87, 0x76, 0x86, 0x86, 0x85, 0x86, 0x53, 0x98,
   0x78, 0x78, 0x77, 0x87, 0x79, 0x67, 0x79, 0x85, 0x87, 0x69, 0x67, 0x68, 0x78, 0x69, 0x68, 0x69, 0x58, 0x87, 0x66, 0x97,
   0x68, 0x68, 0x76, 0x85, 0x78, 0x87, 0x67, 0x97, 0x67, 0x74, 0xA2, 0x28, 0x77, 0x78, 0x77, 0x77, 0x78, 0x68, 0x67, 0x78,
   0x77, 0x78, 0x68, 0x68, 0x77, 0x59, 0x67, 0x5A, 0x68, 0x68, 0x68, 0x68, 0x68, 0x68, 0x67, 0x77, 0x78, 0x68, 0x68, 0x78,
   0x59, 0x58, 0x76, 0x77, 0x68, 0x78, 0x68, 0x59, 0x69, 0x58, 0x68, 0x68, 0x67, 0x78, 0x77, 0x78, 0x69, 0x58, 0x68, 0x57,
   0x78, 0x67, 0x78, 0x76, 0x88, 0x58, 0x67, 0x7A, 0x46, 0x88, 0x77, 0x78, 0x68, 0x68, 0x66, 0x78, 0x78, 0x68, 0x68, 0x59,
   0x68, 0x69, 0x68, 0x59, 0x67, 0x78, 0x59, 0x58, 0x69, 0x59, 0x67, 0x68, 0x67, 0x69, 0x69, 0x57, 0x79, 0x68, 0x59, 0x59,
   0x59, 0x68, 0x68, 0x68, 0x58, 0x78, 0x67, 0x59, 0x68, 0x78, 0x59, 0x58, 0x78, 0x58, 0x76, 0x78, 0x68, 0x68, 0x68, 0x69,
   0x59, 0x67, 0x68, 0x69, 0x59, 0x59, 0x58, 0x69, 0x59, 0x59, 0x58, 0x5A, 0x58, 0x68, 0x68, 0x59, 0x58, 0x68, 0x66, 0x47,
   0x88, 0x77, 0x87, 0x77, 0x87, 0x76, 0x87, 0x87, 0x87, 0x77, 0x77, 0x87, 0x67, 0x96, 0x78, 0x76, 0x87, 0x68, 0x77, 0x77,
   0x76, 0x86, 0x96, 0x86, 0x88, 0x77, 0x85, 0x86, 0x8B, 0x76, 0x0A, 0xF9, 0x07, 0x38, 0x57, 0x67, 0x77, 0x78, 0x77, 0x91,
   0x77, 0xD7, 0x77, 0x7A, 0x67, 0x3C, 0x68, 0x68, 0x77, 0x68, 0x78, 0x59, 0x77, 0x68, 0x77, 0x68, 0x76, 0x77, 0x69, 0x68,
   0x68, 0x68, 0x68, 0x67, 0x68, 0x68, 0x77, 0x87, 0x77, 0x67, 0x78, 0x68, 0x67, 0x58, 0x78, 0x68, 0x77, 0x68, 0x78, 0x67,
   0x68, 0x68, 0x67, 0x78, 0x77, 0x77, 0x87, 0x77, 0x76, 0x67, 0x86, 0x85, 0x87, 0x86, 0x97, 0x58, 0x67, 0x79, 0x57, 0x77,
   0x87, 0x77, 0x87, 0x77, 0x76, 0x59, 0x78, 0x77, 0x77, 0x68, 0x77, 0x77, 0x76, 0x78, 0x77, 0x77, 0x77, 0x76, 0x87, 0x77,
   0x77, 0x68, 0x77, 0x77, 0x77, 0x67, 0x78, 0x77, 0x77, 0x77, 0x77, 0x77, 0x77, 0x77, 0x68, 0x77, 0x76, 0x68, 0x87, 0x77,
   0x77, 0x77, 0x77, 0x68, 0x77, 0x68, 0x77, 0x77, 0x77, 0x77, 0x77, 0x77, 0x76, 0x78, 0x77, 0x77, 0x76, 0x87, 0x77, 0x77,
   0x67, 0x78, 0x77, 0x77, 0x76, 0x78, 0x67, 0x68, 0x68, 0x29, 0x77, 0x88, 0x78, 0x78, 0x77, 0x68, 0x77, 0x77, 0x77, 0x77,
   0x77, 0x77, 0x77, 0x77, 0x4A, 0x77, 0x4A, 0x74, 0x77, 0x77, 0x68, 0xA4, 0x7A, 0x47, 0x76, 0x86, 0x78, 0x76, 0x7A, 0x4A,
   0x83, 0xB2, 0x87, 0x77, 0x87, 0x76, 0x96, 0x86, 0x96, 0x76, 0x78, 0x87, 0x77, 0x85, 0x87, 0x85, 0x96, 0x65, 0xB5, 0x95,
   0x96, 0x77, 0x77, 0x86, 0x76, 0x86, 0x86, 0x87, 0x86, 0x86, 0x76, 0x96, 0x96, 0x57, 0x77, 0x85, 0x97, 0x85, 0x86, 0xA5,
   0x86, 0x85, 0x87, 0x77, 0x68, 0x78, 0x77, 0x95, 0x86, 0x75, 0x87, 0x76, 0x86, 0x79, 0x68, 0x84, 0x96, 0x76, 0xB3, 0x87,
   0x77, 0x68, 0x86, 0xA5, 0x77, 0x56, 0xB6, 0x68, 0x85, 0x93, 0xB6, 0x95, 0x95, 0x85, 0x95, 0xA5, 0x95, 0x95, 0x69, 0x85,
   0x95, 0x85, 0x86, 0x86, 0x97, 0x84, 0x85, 0xB6, 0x84, 0xA5, 0x95, 0xA4, 0x95, 0x95, 0x95, 0x68, 0x95, 0x66, 0xA6, 0x95,
   0x95, 0x95, 0x86, 0x93, 0xB5, 0x86, 0x77, 0x94, 0x96, 0x95, 0x96, 0x85, 0x68, 0x94, 0x87, 0x95, 0x86, 0x86, 0x93, 0xB4,
   0xA3, 0xB3, 0xA6, 0x86, 0x85, 0x85, 0x96, 0x76, 0x86, 0x64, 0x69, 0x78, 0x68, 0x78, 0x78, 0x77, 0x67, 0x79, 0x68, 0x79,
   0x59, 0x56, 0x87, 0x98, 0x68, 0x78, 0x76, 0x88, 0x68, 0x68, 0x67, 0x76, 0x87, 0x68, 0x78, 0x76, 0x78, 0x77, 0x78, 0xA6,
   0x80, 0xAF, 0x81, 0x38, 0x47, 0x67, 0x77, 0x78, 0x77, 0x89, 0x07, 0x79, 0xB7, 0x87, 0x86, 0x86, 0x87, 0x86, 0x87, 0x76,
   0x78, 0x77, 0x87, 0x66, 0x96, 0x86, 0x86, 0x74, 0xA6, 0x87, 0x86, 0x77, 0x86, 0x77, 0x76, 0x77, 0x77, 0x87, 0x77, 0x77,
   0x77, 0x77, 0x87, 0x65, 0x78, 0x77, 0x78, 0x75, 0x88, 0x85, 0x76, 0x87, 0x95, 0x77, 0x86, 0x87, 0x86, 0x96, 0x85, 0x76,
   0x69, 0x67, 0x59, 0x77, 0x6A, 0x65, 0x86, 0x78, 0x94, 0x77, 0x88, 0x77, 0x78, 0x85, 0x96, 0x65, 0x98, 0x77, 0x87, 0x67,
   0x86, 0x77, 0x87, 0x66, 0x87, 0x86, 0x86, 0x86, 0x77, 0x86, 0x86, 0x76, 0x87, 0x86, 0x77, 0x76, 0x87, 0x77, 0x86, 0x86,
   0x86, 0x87, 0x76, 0x95, 0x86, 0x86, 0x87, 0x65, 0x97, 0x86, 0x87, 0x76, 0x86, 0x86, 0x87, 0x75, 0x88, 0x76, 0x87, 0x76,
   0x87, 0x76, 0x77, 0x77, 0x86, 0x78, 0x76, 0x76, 0x96, 0x78, 0x76, 0x77, 0x86, 0x77, 0x77, 0x76, 0x96, 0x75, 0x95, 0x56,
   0x87, 0x87, 0x87, 0x78, 0x88, 0x67, 0x87, 0x87, 0x58, 0x87, 0x77, 0x87, 0x77, 0x76, 0x87, 0x96, 0x59, 0x88, 0x37, 0x89,
   0x69, 0x69, 0x84, 0x96, 0x67, 0x77, 0x57, 0x4B, 0x58, 0xB7, 0x80, 0x8E, 0x0D, 0x78, 0x87, 0x77, 0x87, 0x68, 0x79, 0x49,
   0x76, 0x78, 0x77, 0x5A, 0x67, 0x69, 0x68, 0x68, 0x68, 0x4A, 0x68, 0x69, 0x67, 0x69, 0x59, 0x58, 0x68, 0x67, 0x69, 0x77,
   0x77, 0x69, 0x68, 0x68, 0x66, 0x68, 0x87, 0x68, 0x77, 0x5A, 0x68, 0x67, 0x68, 0x68, 0x67, 0x78, 0x78, 0x67, 0x6A, 0x59,
   0x67, 0x57, 0x95, 0x78, 0x77, 0x86, 0x88, 0x57, 0x77, 0x68, 0x67, 0x79, 0x76, 0x76, 0x98, 0x68, 0x75, 0x68, 0x88, 0x58,
   0x87, 0x5A, 0x57, 0x79, 0x67, 0x59, 0x78, 0x49, 0x58, 0x77, 0x79, 0x49, 0x68, 0x59, 0x77, 0x68, 0x78, 0x48, 0x79, 0x67,
   0x68, 0x59, 0x68, 0x68, 0x59, 0x75, 0x6A, 0x68, 0x76, 0x4C, 0x67, 0x77, 0x78, 0x59, 0x69, 0x56, 0x96, 0x68, 0x68, 0x68,
   0x77, 0x69, 0x67, 0x68, 0x67, 0x78, 0x69, 0x68, 0x58, 0x59, 0x68, 0x68, 0x69, 0x49, 0x77, 0x59, 0x67, 0x69, 0x67, 0x68,
   0x65, 0x48, 0x77, 0x87, 0x86, 0x96, 0x88, 0x75, 0x87, 0x96, 0x87, 0x95, 0x87, 0x77, 0x68, 0x86, 0x77, 0x77, 0x96, 0x68,
   0x86, 0x77, 0x85, 0x5A, 0x81, 0xD5, 0x95, 0x68, 0x99, 0x74, 0x98, 0x77, 0x09, 0xF9, 0x0A, 0x5A, 0x66, 0x58, 0x77, 0x87,
   0x91, 0x77, 0x77, 0xE9, 0x77, 0x77, 0x77, 0x76, 0x87, 0x75, 0x97, 0x77, 0x77, 0x77, 0x78, 0x68, 0x68, 0x68, 0x67, 0x3B,
   0x59, 0x77, 0x77, 0x57, 0x79, 0x57, 0x86, 0x87, 0x67, 0x97, 0x77, 0x57, 0x79, 0x77, 0x77, 0x75, 0x95, 0x77, 0x79, 0x75,
   0x97, 0x57, 0x77, 0x79, 0x58, 0x69, 0x77, 0x77, 0x77, 0x77, 0x77, 0x75, 0x86, 0x77, 0x87, 0x58, 0x95, 0x78, 0x65, 0x8A,
   0x39, 0x58, 0x87, 0x96, 0x87, 0x77, 0x77, 0x77, 0x86, 0x87, 0x76, 0x78, 0x77, 0x77, 0x77, 0x68, 0x77, 0x77, 0x77, 0x77,
   0x77, 0x68, 0x77, 0x68, 0x77, 0x67, 0x86, 0x77, 0x78, 0x77, 0x77, 0x77, 0x77, 0x77, 0x68, 0x77, 0x77, 0x77, 0x77, 0x68,
   0x77, 0x68, 0x77, 0x67, 0x78, 0x77, 0x77, 0x68, 0x68, 0x76, 0x87, 0x68, 0x77, 0x77, 0x77, 0x68, 0x77, 0x77, 0x77, 0x77,
   0x77, 0x77, 0x77, 0x68, 0x77, 0x77, 0x77, 0x68, 0x68, 0x68, 0x76, 0x38, 0x97, 0x67, 0x79, 0x77, 0x77, 0x77, 0x77, 0x77,
   0x77, 0x77, 0x77, 0x77, 0x77, 0x77, 0x77, 0x78, 0x77, 0x77, 0x77, 0x77, 0x77, 0x77, 0x77, 0x77, 0x77, 0x77, 0x77, 0x68,
   0x72, 0xC5, 0x86, 0x86, 0x98, 0x77, 0x86, 0x78, 0x1C, 0x85, 0x2E, 0x77, 0x77, 0x77, 0x87, 0x86, 0x76, 0x86, 0x86, 0xA0,
   0xBD, 0x49, 0x97, 0x66, 0x48, 0x88, 0x48, 0x68, 0x86, 0x78, 0x77, 0x77, 0x78, 0x66, 0xA6, 0x87, 0x83, 0x85, 0x88, 0x78,
   0x66, 0xA7, 0x56, 0x87, 0x6A, 0x46, 0x89, 0x76, 0xA7, 0x76, 0x87, 0x74, 0xA2, 0x86, 0x77, 0x79, 0x66, 0xB6, 0x48, 0x67,
   0x8A, 0x36, 0x88, 0x77, 0xA5, 0xA5, 0xB1, 0xE9, 0x39, 0x78, 0x78, 0x75, 0x87, 0x77, 0x77, 0x77, 0x68, 0x58, 0x79, 0x69,
   0x4A, 0x59, 0x29, 0x6A, 0x3C, 0x3B, 0x46, 0x78, 0x75, 0x89, 0x76, 0x89, 0x4A, 0x56, 0x88, 0x3B, 0x66, 0x88, 0x68, 0x87,
   0x57, 0x97, 0x38, 0x87, 0x56, 0xB7, 0x84, 0x88, 0x67, 0x57, 0x95, 0xA8, 0x59, 0x77, 0x68, 0x4A, 0x49, 0x69, 0x57, 0x6A,
   0x59, 0x58, 0x67, 0x87, 0x5A, 0x75, 0x78, 0x69, 0x56, 0x97, 0x77, 0x73, 0x08, 0x78, 0x78, 0x77, 0x87, 0x78, 0x77, 0x78,
   0x77, 0x77, 0x87, 0x78, 0x68, 0x77, 0x77, 0x87, 0x78, 0x76, 0x86, 0x97, 0x58, 0x77, 0x78, 0x58, 0x78, 0x77, 0x68, 0x78,
   0x75, 0x95, 0xB7, 0x70, 0x8F, 0x80, 0xA6, 0x87, 0x65, 0x66, 0x78, 0x7A, 0x17, 0x77, 0x70]

/-! ## Method 13 ("TableHuff"): static tables from stuffit.cpp lines 590-689 -/

def SIT13Bits : List Nat := [0, 8, 4, 12, 2, 10, 6, 14, 1, 9, 5, 13, 3, 11, 7, 15]

def SIT13Info : List Nat :=
  [0x5D8, 0x058, 0x040, 0x0C0, 0x000, 0x078, 0x02B, 0x014,
   0x00C, 0x01C, 0x01B, 0x00B, 0x010, 0x020, 0x038, 0x018,
   0x0D8, 0xBD8, 0x180, 0x680, 0x380, 0xF80, 0x780, 0x480,
   0x080, 0x280, 0x3D8, 0xFD8, 0x7D8, 0x9D8, 0x1D8, 0x004,
   0x001, 0x002, 0x007, 0x003, 0x008]

def SIT13InfoBits : List Nat :=
  [11, 8, 8, 8, 8, 7, 6, 5, 5, 5, 5, 6, 5, 6, 7, 7,
   9, 12, 10, 11, 11, 12, 12, 11, 11, 11, 12, 12, 12, 12, 12, 5,
   2, 2, 3, 4, 5]

def SIT13StaticPos : List Nat := [0, 330, 661, 991, 1323]

def SIT13StaticBits : List Nat := [11, 13, 14, 11, 11]

/-- An entry of the 12-bit lookup buffers (`struct SIT13Buffer`). -/
structure SIT13Buffer where
  data : Nat
  bits : Int
deriving DecidableEq

/-- An overflow-tree node (`struct SIT13Store`). -/
structure SIT13Store where
  freq : Int
  d1 : Nat
  d2 : Nat
deriving DecidableEq

/-- The shared pieces of `SIT13Data` that the table-construction code
mutates: the overflow-node allocator counter `MaxBits` and the overflow-node
pool `Buffer4`. -/
structure S13 where
  maxBits : Nat
  buffer4 : Nat → SIT13Store

/-- The `while(j--)` overflow-node walk of `SIT13_Func1`: descend `j` levels
of the overflow tree along the low bits of `info`, allocating missing nodes
from the `MaxBits` counter. -/
def sit13Func1Walk : Nat → S13 → Nat → Nat → S13 × Nat
  | 0, s, cur, _ => (s, cur)
  | j + 1, s, cur, info =>
    let node := s.buffer4 cur
    let a := if info % 2 = 1 then node.d2 else node.d1
    if a = 0 then
      let fresh := s.maxBits
      let node' : SIT13Store :=
        if info % 2 = 1 then ⟨node.freq, node.d1, fresh⟩ else ⟨node.freq, fresh, node.d2⟩
      sit13Func1Walk j ⟨s.maxBits + 1, upd s.buffer4 cur node'⟩ fresh (info / 2)
    else
      sit13Func1Walk j s a (info / 2)

/-- `SIT13_Func1` (lines 691-727): install sym `num` with reversed code `info`
of length `bits` into the 12-bit table `buf`, spilling codes longer than 12
bits into the `Buffer4` overflow tree. -/
def SIT13_Func1 (s : S13) (buf : Nat → SIT13Buffer) (info bits num : Nat) :
    S13 × (Nat → SIT13Buffer) :=
  if bits ≤ 12 then
    (s, (List.range (2 ^ (12 - bits))).foldl
      (fun b i => upd b (info + i * 2 ^ bits) ⟨num, (bits : Int)⟩) buf)
  else
    let j := bits - 12
    let slot := info % 4096
    let start :=
      if (buf slot).bits ≠ 31 then s.maxBits else (buf slot).data
    let s1 : S13 := if (buf slot).bits ≠ 31 then ⟨s.maxBits + 1, s.buffer4⟩ else s
    let buf1 := if (buf slot).bits ≠ 31 then upd buf slot ⟨s.maxBits, 31⟩ else buf
    let (s2, last) := sit13Func1Walk j s1 start (info / 4096)
    let node := s2.buffer4 last
    (⟨s2.maxBits, upd s2.buffer4 last ⟨(num : Int), node.d1, node.d2⟩⟩, buf1)

/-- Swap two entries of a buffer segment (the manual swap in
`SIT13_SortTree`). -/
def swapB (arr : Nat → SIT13Buffer) (i j : Nat) : Nat → SIT13Buffer :=
  upd (upd arr i (arr j)) j (arr i)

/-- The `while(++a < buf2)` scan of `SIT13_SortTree`. -/
def sortScanUp (arr : Nat → SIT13Buffer) (lo hi : Nat) : Nat → Nat → Nat
  | 0, a => a
  | f + 1, a =>
    let a' := a + 1
    if a' < hi then
      if 0 < (arr a').bits - (arr lo).bits ∨
         ((arr a').bits - (arr lo).bits = 0 ∧ (arr lo).data ≤ (arr a').data) then a'
      else sortScanUp arr lo hi f a'
    else a'

/-- The `while(--b > buf)` scan of `SIT13_SortTree`. -/
def sortScanDown (arr : Nat → SIT13Buffer) (lo : Nat) : Nat → Nat → Nat
  | 0, b => b
  | f + 1, b =>
    let b' := b - 1
    if lo < b' then
      if (arr b').bits - (arr lo).bits < 0 ∨
         ((arr b').bits - (arr lo).bits = 0 ∧ (arr b').data ≤ (arr lo).data) then b'
      else sortScanDown arr lo f b'
    else b'

/-- The partition `for(;;)` loop of `SIT13_SortTree`. -/
def sortPart (lo hi : Nat) :
    Nat → (Nat → SIT13Buffer) → Nat → Nat → ((Nat → SIT13Buffer) × Nat × Nat)
  | 0, arr, a, b => (arr, a, b)
  | f + 1, arr, a, b =>
    let a' := sortScanUp arr lo hi (hi + 1) a
    let b' := sortScanDown arr lo (hi + 1) b
    if b' < a' then (arr, a', b')
    else sortPart lo hi f (swapB arr a' b') a' b'

/-- `SIT13_SortTree` (lines 729-789): quicksort of the `(bits, data)` records
in `[lo, hi)`, ordered by bits then data. -/
def SIT13_SortTree : Nat → (Nat → SIT13Buffer) → Nat → Nat → (Nat → SIT13Buffer)
  | 0, arr, _, _ => arr
  | f + 1, arr, lo, hi =>
    if lo + 1 < hi then
      let p := sortPart lo hi (hi - lo + 2) arr lo hi
      let arr1 := p.1
      let b := p.2.2
      if b = lo then SIT13_SortTree f arr1 (lo + 1) hi
      else
        let arr2 := swapB arr1 lo b
        if hi - (b + 1) ≤ b - lo then
          SIT13_SortTree f (SIT13_SortTree f arr2 (b + 1) hi) lo b
        else
          SIT13_SortTree f (SIT13_SortTree f arr2 lo b) (b + 1) hi
    else arr

/-- The 32-bit nibble-wise bit reversal inside `SIT13_Func2`
(`for(n=m=0; n<8*4; n+=4) m += SIT13Bits[(l>>n)&0xF] << (7*4-n)`). -/
def sit13Rev (l : Nat) : Nat :=
  (List.range 8).foldl
    (fun m t => m + (SIT13Bits.getD ((l >>> (4 * t)) % 16) 0 <<< (28 - 4 * t))) 0

/-- The code-assignment loop of `SIT13_Func2`, iterating over the sorted
`(bits, data)` records: state is `(i, l, j, k)` with `l` the running
canonical code (32-bit), `j` the current length and `k` its increment. -/
def SIT13_Func2Core (buf2 : Nat → SIT13Buffer) :
    Nat → (S13 × (Nat → SIT13Buffer)) → Nat → Nat → Int → Nat →
    S13 × (Nat → SIT13Buffer)
  | 0, sb, _, _, _, _ => sb
  | cnt + 1, (s, buf), i, l, j, k =>
    let l := (l + k) % 2 ^ 32
    let m := (buf2 i).bits
    let j' := if m ≠ j then m else j
    let k' := if m ≠ j then (if m = -1 then 0 else 2 ^ (32 - m).toNat) else k
    let sb :=
      if 0 < j' then SIT13_Func1 s buf (sit13Rev l) j'.toNat (buf2 i).data
      else (s, buf)
    SIT13_Func2Core buf2 cnt sb (i + 1) l j' k'

/-- `SIT13_Func2` (lines 791-816): sort the records, then assign canonical
codes and install them via `SIT13_Func1`. -/
def SIT13_Func2 (s : S13) (buf : Nat → SIT13Buffer) (count : Nat)
    (buf2 : Nat → SIT13Buffer) : S13 × (Nat → SIT13Buffer) :=
  let sorted := SIT13_SortTree (count + 2) buf2 0 count
  SIT13_Func2Core sorted count (s, buf) 0 0 0 0

/-- `SIT13_CreateStaticTree` (lines 818-828): entry `i` gets length
`bitsbuf i`; the target 12-bit table starts zeroed (the `SIT13Buffer`
constructor zero-initializes, and each of the three tables is built once per
decode). -/
def SIT13_CreateStaticTree (s : S13) (count : Nat) (bitsbuf : Nat → Nat) :
    S13 × (Nat → SIT13Buffer) :=
  let buf2 : Nat → SIT13Buffer := fun i => if i < count then ⟨i, (bitsbuf i : Int)⟩ else ⟨0, 0⟩
  SIT13_Func2 s (fun _ => ⟨0, 0⟩) count buf2

/-- One nibble read of `SIT13InitInfo` (`k = id ? *b >> 4 : *(b++) & 0xF;
id ^= 1`): returns the nibble, the new byte position and the new parity. -/
def sit13Nib (bpos par : Nat) : Nat × Nat × Nat :=
  if par = 1 then ((SIT13Static.getD bpos 0) / 16, bpos, 0)
  else ((SIT13Static.getD bpos 0) % 16, bpos + 1, 1)

/-- The 658-entry delta/RLE decode loop of `SIT13InitInfo`; `l` is the uint8
running length. Returns the decoded `TextBuf` contents in order. -/
def sit13TextLoop : Nat → Nat → Nat → Nat → List Nat → List Nat
  | 0, _, _, _, acc => acc.reverse
  | n + 1, bpos, par, l, acc =>
    let r := sit13Nib bpos par
    let k := r.1
    let l' :=
      if k = 0 then
        let r2 := sit13Nib r.2.1 r.2.2
        (l + 256 - r2.1) % 256
      else if k = 15 then
        let r2 := sit13Nib r.2.1 r.2.2
        (l + r2.1) % 256
      else (l + 249 + k) % 256
    let next :=
      if k = 0 ∨ k = 15 then (sit13Nib r.2.1 r.2.2).2 else r.2
    sit13TextLoop n next.1 next.2 l' (l' :: acc)

/-- The decoded 658-byte `TextBuf` for nibble stream start `startPos` and
initial parity `par`. -/
def sit13TextRun (startPos par : Nat) : Nat → Nat :=
  fun i => (sit13TextLoop 658 startPos par 0 []).getD i 0

/-- `SIT13InitInfo` (lines 830-859): decode the static profile `id - 1`
(the source computes `SIT13Static + SIT13StaticPos[id-1]` and starts with
parity `id & 1`). -/
def SIT13InitInfo (id : Nat) : Nat → Nat :=
  sit13TextRun (SIT13StaticPos.getD (id - 1) 0) (id % 2)

/-- `while(data--) s->Buffer5[i++].bits = bi`: emit `cnt` copies of `bi`
starting at index `i`; returns the buffer and the next index. -/
def emitRun : Nat → (Nat → Int) → Nat → Int → ((Nat → Int) × Nat)
  | 0, b5, i, _ => (b5, i)
  | c + 1, b5, i, bi => emitRun c (upd b5 i bi) (i + 1) bi

/-- The code-length reading loop of `SIT13_CreateTree` (lines 949-977): decode
symbols of the 37-entry nested alphabet from `buffer1` and update the running
length `bi`, emitting lengths into the `Buffer5.bits` column. Every iteration
ends with the shared `s->Buffer5[i].bits = bi` store and the `++i` of the
`for` loop. -/
def sit13CreateLoop (buffer1 : Nat → SIT13Buffer) (num : Nat) :
    Nat → Nat → (Nat → Int) → Int → Bits → ((Nat → Int) × Bits)
  | 0, _, b5, _, bits => (b5, bits)
  | f + 1, i, b5, bi, bits =>
    if i < num then
      let b := buffer1 (bits.peek 12)
      let data := b.data
      let bits := bits.skip b.bits.toNat
      if data = 0x1F then
        sit13CreateLoop buffer1 num f (i + 1) (upd b5 i (-1)) (-1) bits
      else if data = 0x20 then
        sit13CreateLoop buffer1 num f (i + 1) (upd b5 i (bi + 1)) (bi + 1) bits
      else if data = 0x21 then
        sit13CreateLoop buffer1 num f (i + 1) (upd b5 i (bi - 1)) (bi - 1) bits
      else if data = 0x22 then
        if bits.peek 1 = 1 then
          sit13CreateLoop buffer1 num f (i + 2) (upd (upd b5 i bi) (i + 1) bi) bi (bits.skip 1)
        else
          sit13CreateLoop buffer1 num f (i + 1) (upd b5 i bi) bi (bits.skip 1)
      else if data = 0x23 then
        let e := bits.peek 3
        let r := emitRun (e + 2) b5 i bi
        sit13CreateLoop buffer1 num f (r.2 + 1) (upd r.1 r.2 bi) bi (bits.skip 3)
      else if data = 0x24 then
        let e := bits.peek 6
        let r := emitRun (e + 10) b5 i bi
        sit13CreateLoop buffer1 num f (r.2 + 1) (upd r.1 r.2 bi) bi (bits.skip 6)
      else
        sit13CreateLoop buffer1 num f (i + 1) (upd b5 i ((data : Int) + 1))
          ((data : Int) + 1) bits
    else (b5, bits)

/-- `SIT13_CreateTree` (lines 942-981): read `num` code lengths with the
nested alphabet, then set `Buffer5[i].data = i` and build the table via
`SIT13_Func2`. -/
def SIT13_CreateTree (s : S13) (buffer1 : Nat → SIT13Buffer) (bits : Bits)
    (num : Nat) : S13 × (Nat → SIT13Buffer) × Bits :=
  let r := sit13CreateLoop buffer1 num (num + 1) 0 (fun _ => 0) 0 bits
  let buf2 : Nat → SIT13Buffer := fun i => ⟨i, r.1 i⟩
  let sb := SIT13_Func2 s (fun _ => ⟨0, 0⟩) num buf2
  (sb.1, sb.2, r.2)

/-- The `while(s->Buffer4[j].freq == -1)` overflow walk of `SIT13_Extract`. -/
def sit13Walk (b4 : Nat → SIT13Store) : Nat → Nat → Bits → Option (Nat × Bits)
  | 0, _, _ => none
  | f + 1, j, bits =>
    if (b4 j).freq = -1 then
      let g := bits.get1
      sit13Walk b4 f (if g.1 = 1 then (b4 j).d2 else (b4 j).d1) g.2
    else some ((b4 j).freq.toNat, bits)

/-- The primary-symbol decode of `SIT13_Extract` (lines 867-884): peek 12
bits into the active table; a `bits` entry of 0 makes the decode fail
(`return false` in the source); an entry above 12 spills into the overflow
walk. `none` also covers walk-fuel exhaustion, which cannot occur on the
well-formed tables the decoder builds. -/
def sit13DecodeSym (b4 : Nat → SIT13Store) (wf : Nat) (tbl : Nat → SIT13Buffer)
    (bits : Bits) : Option (Nat × Bits) :=
  let k := bits.peek 12
  let j := (tbl k).bits
  if j ≤ 12 then
    if j = 0 then none else some ((tbl k).data, bits.skip j.toNat)
  else
    sit13Walk b4 wf ((tbl k).data) (bits.skip 12)

/-- The offset-prefix decode of `SIT13_Extract` (lines 909-923); unlike the
primary decode it has no zero-length failure check. -/
def sit13DecodeOff (b4 : Nat → SIT13Store) (wf : Nat) (tbl : Nat → SIT13Buffer)
    (bits : Bits) : Option (Nat × Bits) :=
  let jj := bits.peek 12
  let k := (tbl jj).bits
  if k ≤ 12 then some ((tbl jj).data, bits.skip k.toNat)
  else
    sit13Walk b4 wf ((tbl jj).data) (bits.skip 12)

/-- `Common::MemoryWriteStream::writeByte` on a buffer of capacity `cap`:
writes past the capacity are dropped. -/
def wrCap (cap : Nat) (out : List Nat) (b : Nat) : List Nat :=
  if out.length < cap then out ++ [b % 256] else out

/-- The back-reference copy loop of `SIT13_Extract` (lines 928-935): `size`
iterations of mask-read-emit-store over the 64 KiB window. -/
def sit13Copy : Nat → (Nat → Nat) → Nat → Nat → Nat → List Nat →
    ((Nat → Nat) × Nat × List Nat)
  | 0, window, wpos, _, _, out => (window, wpos, out)
  | size + 1, window, wpos, l, cap, out =>
    let l1 := l % 0x10000
    let b := window l1
    sit13Copy size (upd window wpos b) ((wpos + 1) % 0x10000) (l1 + 1) cap
      (wrCap cap out b)

/-- `SIT13_Extract` (lines 861-940): the main decode loop. `buf` is the
active primary table (`Buffer3` after a literal, `Buffer3b` after a match),
`window`/`wpos` the 64 KiB sliding window, `out` the bytes written so far.
Returns `some (true, out)` on the end-of-stream symbol 0x140,
`some (false, out)` on a failed decode or bit-stream exhaustion, and `none`
when the fuel runs out (an artifact of the embedding). -/
def SIT13_Extract (b4 : Nat → SIT13Store) (b3 b3b b2 : Nat → SIT13Buffer)
    (wf cap : Nat) :
    Nat → (Nat → SIT13Buffer) → (Nat → Nat) → Nat → Bits → List Nat →
    Option (Bool × List Nat)
  | 0, _, _, _, _, _ => none
  | fuel + 1, buf, window, wpos, bits, out =>
    if bits.eos then some (false, out)
    else
      match sit13DecodeSym b4 wf buf bits with
      | none => some (false, out)
      | some (l, bits) =>
        if l < 0x100 then
          SIT13_Extract b4 b3 b3b b2 wf cap fuel b3 (upd window wpos l)
            ((wpos + 1) % 0x10000) bits (wrCap cap out l)
        else
          if l = 0x140 then some (true, out)
          else
            let size := if l < 0x13E then l - 0x100 + 3
                        else if l = 0x13E then bits.peek 10 + 65
                        else bits.peek 15 + 65
            let bits := if l < 0x13E then bits
                        else if l = 0x13E then bits.skip 10
                        else bits.skip 15
            match sit13DecodeOff b4 wf b2 bits with
            | none => none
            | some (v, bits) =>
              let kraw := if v = 0 then 0 else (2 ^ (v - 1) ||| bits.peek (v - 1)) % 2 ^ 32
              let bits := if v = 0 then bits else bits.skip (v - 1)
              let r := sit13Copy size window wpos
                ((wpos + 0x10000 + (2 ^ 32 - (kraw + 1))) % 2 ^ 32) cap out
              SIT13_Extract b4 b3 b3b b2 wf cap fuel b3b r.1 r.2.1 bits r.2.2

/-- The construction of `Buffer1` at the top of `decompress13`
(lines 992-994): `MaxBits = 1`, then install the 37 fixed nested-alphabet
codes. -/
def mkBuffer1 : S13 × (Nat → SIT13Buffer) :=
  (List.range 37).foldl
    (fun sb i => SIT13_Func1 sb.1 sb.2 (SIT13Info.getD i 0) (SIT13InfoBits.getD i 0) i)
    (⟨1, fun _ => ⟨0, 0, 0⟩⟩, fun _ => ⟨0, 0⟩)

/-- Lines 995-999: mark overflow nodes 1..0x703 as free (`freq = -1`). -/
def s13MarkFree (s : S13) : S13 :=
  ⟨s.maxBits, fun i =>
    if 1 ≤ i ∧ i < 0x704 then ⟨-1, (s.buffer4 i).d1, (s.buffer4 i).d2⟩
    else s.buffer4 i⟩

/-- `StuffItArchive::decompress13` (lines 983-1023). `cap` is the output
buffer capacity (`uncompressedSize`), `input` the payload bit stream, `fuel`
and `wf` the decode-loop and overflow-walk fuels. Returns `some (false, _)`
where the source returns `false`. -/
def decompress13 (cap : Nat) (input : List Bool) (fuel wf : Nat) :
    Option (Bool × List Nat) :=
  let sb := mkBuffer1
  let s := s13MarkFree sb.1
  let buffer1 := sb.2
  let bits : Bits := ⟨0, input⟩
  let j := bits.peek 8
  let bits := bits.skip 8
  let i := j >>> 4
  if 5 < i then some (false, [])
  else if i ≠ 0 then
    let text := SIT13InitInfo i
    let p1 := SIT13_CreateStaticTree s 0x141 text
    let p2 := SIT13_CreateStaticTree p1.1 0x141 (fun t => text (0x141 + t))
    let p3 := SIT13_CreateStaticTree p2.1 (SIT13StaticBits.getD (i - 1) 0)
      (fun t => text (0x282 + t))
    SIT13_Extract p3.1.buffer4 p1.2 p2.2 p3.2 wf cap fuel p1.2 (fun _ => 0) 0 bits []
  else
    let q1 := SIT13_CreateTree s buffer1 bits 0x141
    let s1 := q1.1
    let b3 := q1.2.1
    let bits1 := q1.2.2
    let q2 := if j &&& 8 ≠ 0 then (s1, b3, bits1)
              else SIT13_CreateTree s1 buffer1 bits1 0x141
    let s2 := q2.1
    let b3b := q2.2.1
    let bits2 := q2.2.2
    let q3 := SIT13_CreateTree s2 buffer1 bits2 ((j &&& 7) + 10)
    SIT13_Extract q3.1.buffer4 b3 b3b q3.2.1 wf cap fuel b3 (fun _ => 0) 0 q3.2.2 []
/-! ## Method 14 ("Installer"), stuffit.cpp lines 376-556 and 1025-1120 -/

/-- Swap two cells of a `Nat`-valued table (the `SWAP` calls of `update14`). -/
def swapN (g : Nat → Nat) (a b : Nat) : Nat → Nat :=
  upd (upd g a (g b)) b (g a)

/-- The `while (++i < last && code[first] > code[i])` scan of `update14`. -/
def u14ScanUp (code : Nat → Nat) (first last : Nat) : Nat → Nat → Nat
  | 0, i => i
  | f + 1, i =>
    let i' := i + 1
    if i' < last then
      if code first > code i' then u14ScanUp code first last f i' else i'
    else i'

/-- The `while (--j > first && code[first] < code[j])` scan of `update14`. -/
def u14ScanDown (code : Nat → Nat) (first : Nat) : Nat → Nat → Nat
  | 0, j => j
  | f + 1, j =>
    let j' := j - 1
    if first < j' then
      if code first < code j' then u14ScanDown code first f j' else j'
    else j'

/-- The partition `do ... while (j > i)` loop of `update14`. -/
def u14Part (first last : Nat) :
    Nat → (Nat → Nat) → (Nat → Nat) → Nat → Nat →
    ((Nat → Nat) × (Nat → Nat) × Nat × Nat)
  | 0, code, freq, i, j => (code, freq, i, j)
  | f + 1, code, freq, i, j =>
    let i' := u14ScanUp code first last (last + 1) i
    let j' := u14ScanDown code first (last + 1) j
    if i' < j' then
      u14Part first last f (swapN code i' j') (swapN freq i' j') i' j'
    else (code, freq, i', j')

/-- `StuffItArchive::update14` (lines 376-413): quicksort of `code[first..last)`
with `freq` permuted alongside. -/
def update14 : Nat → Nat → Nat → (Nat → Nat) → (Nat → Nat) →
    ((Nat → Nat) × (Nat → Nat))
  | 0, _, _, code, freq => (code, freq)
  | f + 1, first, last, code, freq =>
    if first + 1 < last then
      let p := u14Part first last (last + 2) code freq first last
      let code1 := p.1
      let freq1 := p.2.1
      let jj := p.2.2.2
      if first ≠ jj then
        let code2 := swapN code1 first jj
        let freq2 := swapN freq1 first jj
        let i2 := jj + 1
        if last - i2 ≤ jj - first then
          let r := update14 f i2 last code2 freq2
          update14 f first jj r.1 r.2
        else
          let r := update14 f first jj code2 freq2
          update14 f i2 last r.1 r.2
      else
        update14 f (first + 1) last code1 freq1
    else (code, freq)

/-- The `do { l = freq[l + bit]; n = size << 1 } while (n > l)` walk of
`readTree14`: follow the nested tree until a value of at least `size2`. -/
def rt14Walk (freqT : Nat → Nat) (size2 : Nat) : Nat → Nat → Bits → Option (Nat × Bits)
  | 0, _, _ => none
  | f + 1, l, bits =>
    let g := bits.get1
    let l' := freqT (l + g.1)
    if l' < size2 then rt14Walk freqT size2 f l' g.2
    else some (l', g.2)

/-- `while (l--) { dat->code[i] = dat->code[i - 1]; ++i; }`: repeat the
previous code length `cnt` times. (At `i = 0` the source reads `code[-1]`,
which is out of bounds; the `Nat` truncation `i - 1 = 0` stands in for that
indeterminate read.) -/
def emitPrev : Nat → (Nat → Nat) → Nat → ((Nat → Nat) × Nat)
  | 0, code, i => (code, i)
  | c + 1, code, i => emitPrev c (upd code i (code (i - 1))) (i + 1)

/-- The nested-tree code-length reading loop of `readTree14`
(lines 452-483). -/
def rt14ReadNested (freqT : Nat → Nat) (size m o kk wf codesize : Nat) :
    Nat → Nat → (Nat → Nat) → Bits → Option ((Nat → Nat) × Bits)
  | 0, _, _, _ => none
  | f + 1, i, code, bits =>
    if i < codesize then
      match rt14Walk freqT (2 * size) wf 0 bits with
      | none => none
      | some (l0, bits) =>
        let l := l0 - 2 * size
        if kk ≠ l then
          if l = m then
            match rt14Walk freqT (2 * size) wf 0 bits with
            | none => none
            | some (l1, bits) =>
              let r := emitPrev (l1 + 3 - 2 * size) code i
              rt14ReadNested freqT size m o kk wf codesize f r.2 r.1 bits
          else
            rt14ReadNested freqT size m o kk wf codesize f (i + 1)
              (upd code i (l + o)) bits
        else
          rt14ReadNested freqT size m o kk wf codesize f (i + 1) (upd code i 0) bits
    else some (code, bits)

/-- The raw `j`-bit code-length reading loop of `readTree14`
(lines 485-502). -/
def rt14ReadRaw (j m o kk codesize : Nat) :
    Nat → Nat → (Nat → Nat) → Bits → Option ((Nat → Nat) × Bits)
  | 0, _, _, _ => none
  | f + 1, i, code, bits =>
    if i < codesize then
      let l := bits.peek j
      let bits := bits.skip j
      if kk ≠ l then
        if l = m then
          let cnt := bits.peek j + 3
          let bits := bits.skip j
          let r := emitPrev cnt code i
          rt14ReadRaw j m o kk codesize f r.2 r.1 bits
        else rt14ReadRaw j m o kk codesize f (i + 1) (upd code i (l + o)) bits
      else rt14ReadRaw j m o kk codesize f (i + 1) (upd code i 0) bits
    else some (code, bits)

/-- `for (i = 0; i < codesize && !codecopy[i]; ++i);` -/
def firstNZ (code : Nat → Nat) (codesize : Nat) : Nat :=
  ((List.range codesize).find? (fun i => code i != 0)).getD codesize

/-- `for (l = j; k--; l >>= 1) m = (m << 1) | (l & 1);` — reverse the low
`k` bits of `l`. -/
def bitRevN : Nat → Nat → Nat → Nat
  | 0, _, m => m
  | k + 1, l, m => bitRevN k (l / 2) (2 * m + l % 2)

/-- The canonical-code assignment loop of `readTree14` (lines 515-526). -/
def rt14Canon (codecopy freqP : Nat → Nat) (codesize : Nat) :
    Nat → Nat → Nat → (Nat → Nat) → (Nat → Nat)
  | 0, _, _, buff => buff
  | f + 1, i, jj, buff =>
    if i < codesize then
      let jj := if i ≠ 0 then jj <<< (codecopy i - codecopy (i - 1)) else jj
      let mm := bitRevN (codecopy i) jj 0
      rt14Canon codecopy freqP codesize f (i + 1) (jj + 1) (upd buff (freqP i) mm)
    else buff

/-- The per-symbol tree-insertion loop of `readTree14` (lines 533-553), for a
symbol whose leaf tag is `leaf`: walk `count` code bits from `m` (LSB first),
allocating interior node pairs from `jalloc`. -/
def rt14Ins (leaf : Nat) : Nat → Nat → Nat → (Nat → Nat) → Nat →
    ((Nat → Nat) × Nat)
  | 0, _, _, result, jalloc => (result, jalloc)
  | r + 1, l, m, result, jalloc =>
    let l := l + m % 2
    if r = 0 then (upd result l leaf, jalloc)
    else
      if result l = 0 then rt14Ins leaf r jalloc (m / 2) (upd result l jalloc) (jalloc + 2)
      else rt14Ins leaf r (result l) (m / 2) result jalloc

/-- `StuffItArchive::readTree14` (lines 439-556): read the per-block tree
header, decode `codesize` code lengths (nested or raw mode), sort them, assign
canonical codes and flatten them into the `result` walk array; `target` is the
array the result is written into (its entries from `2*codesize` on are left as
they were). Ends with `ALIGN_BITS`. The `code`/`codecopy`/`buff` scratch
arrays are modelled as starting zeroed; the source reuses shared scratch whose
stale contents are only reachable through the out-of-bounds `code[-1]` read
noted at `emitPrev`. -/
def readTree14 : Nat → Nat → (Nat → Nat) → Bits → Nat → Option ((Nat → Nat) × Bits)
  | 0, _, _, _, _ => none
  | fuel + 1, codesize, target, bits0, wf =>
    let k := bits0.peek 1
    let b1 := bits0.skip 1
    let j := b1.peek 2 + 2
    let b2 := b1.skip 2
    let o := b2.peek 3 + 1
    let b3 := b2.skip 3
    let size := 2 ^ j
    let m := size - 1
    let kk := if k = 1 then m - 1 else 0xFFFFFFFF
    let fl := b3.peek 2
    let b4 := b3.skip 2
    let codeRes :=
      if fl % 2 = 1 then
        match readTree14 fuel size (fun _ => 0) b4 wf with
        | none => none
        | some (res, b5) =>
          rt14ReadNested res size m o kk wf codesize (codesize + 1) 0 (fun _ => 0) b5
      else
        rt14ReadRaw j m o kk codesize (codesize + 1) 0 (fun _ => 0) b4
    match codeRes with
    | none => none
    | some (code, b6) =>
      let r0 := update14 (2 * codesize + 2) 0 codesize code (fun t => t)
      let cc := r0.1
      let fr := r0.2
      let i0 := firstNZ cc codesize
      let buff := rt14Canon cc fr codesize (codesize + 1) i0 0 (fun _ => 0)
      let result0 : Nat → Nat := fun t => if t < 2 * codesize then 0 else target t
      let rr := (List.range codesize).foldl
        (fun (p : (Nat → Nat) × Nat) i =>
          rt14Ins (2 * codesize + i) (code i) 0 (buff i) p.1 p.2)
        (result0, 2)
      some (rr.1, b6.align)

/-- The `var1`/`var2` length tables of `decompress14` (lines 1040-1043):
`var2[i] = k; k += 1 << (var1[i] = (i >= 4 ? (i - 4) >> 2 : 0))`, `k`
starting at 0, for `i < 52`. Returns `(var1, var2)`. -/
def sit14Var12 : (Nat → Nat) × (Nat → Nat) :=
  let f := (List.range 52).foldl
    (fun (p : ((Nat → Nat) × (Nat → Nat)) × Nat) i =>
      let e := if 4 ≤ i then (i - 4) >>> 2 else 0
      ((upd p.1.1 i e, upd p.1.2 i p.2), p.2 + 2 ^ e))
    (((fun _ => 0), (fun _ => 0)), 0)
  f.1

/-- The `var4`/`var5` offset tables of `decompress14` (lines 1053-1056): `k`
starts at 1, threshold 3, for `i < 75`. Returns `(var4, var5)`. -/
def sit14Var45 : (Nat → Nat) × (Nat → Nat) :=
  let f := (List.range 75).foldl
    (fun (p : ((Nat → Nat) × (Nat → Nat)) × Nat) i =>
      let e := if 3 ≤ i then (i - 3) >>> 2 else 0
      ((upd p.1.1 i e, upd p.1.2 i p.2), p.2 + 2 ^ e))
    (((fun _ => 0), (fun _ => 0)), 1)
  f.1

/-- The `for (i = 0; i < 616;) i = tree[i + getBit()];` walk of the
decompress14 decode loop (and its 150-bound twin for offsets). -/
def sit14WalkTree (tree : Nat → Nat) (bound : Nat) : Nat → Nat → Bits → Option (Nat × Bits)
  | 0, _, _ => none
  | f + 1, i, bits =>
    if i < bound then
      let g := bits.get1
      sit14WalkTree tree bound f (tree (i + g.1)) g.2
    else some (i, bits)

/-- The back-reference copy loop of `decompress14` (lines 1107-1111): `k`
iterations of mask-read-`OUTPUT_VAL` over the 256 KiB window. Returns the
window, the new write position and the output. -/
def sit14Copy : Nat → (Nat → Nat) → Nat → Nat → Nat → List Nat →
    ((Nat → Nat) × Nat × List Nat)
  | 0, window, j, _, _, out => (window, j, out)
  | k + 1, window, j, l, cap, out =>
    let l1 := l % 0x40000
    let x := window l1
    sit14Copy k (upd window j x) ((j + 1) % 0x40000) (l1 + 1) cap
      (wrCap cap out x)

/-- The inner `while (n && !bits->eos())` decode loop of one method-14 block
(lines 1077-1113). The conditional extra-bit reads `if (i) k += getBits(i)`
are written as unconditional `peek`/`skip` of `var1 c` / `var4 c` bits, which
agrees with the source in both cases since a 0-bit read returns 0 and consumes
nothing. -/
def sit14Inner (var1 var2 var4 var5 var7 var3 : Nat → Nat) (wf cap : Nat) :
    Nat → Nat → Nat → (Nat → Nat) → Bits → List Nat →
    Option (Nat × Nat × (Nat → Nat) × Bits × List Nat)
  | 0, _, _, _, _, _ => none
  | fuel + 1, n, j, window, bits, out =>
    if n ≠ 0 ∧ bits.eos = false then
      match sit14WalkTree var7 616 wf 0 bits with
      | none => none
      | some (i0, bits) =>
        let i := i0 - 616
        if i < 0x100 then
          sit14Inner var1 var2 var4 var5 var7 var3 wf cap fuel (n - 1)
            ((j + 1) % 0x40000) (upd window j i) bits (wrCap cap out i)
        else
          let c := i - 0x100
          let k1 := var2 c + 4 + bits.peek (var1 c)
          let bits := bits.skip (var1 c)
          match sit14WalkTree var3 150 wf 0 bits with
          | none => none
          | some (i2, bits) =>
            let c2 := i2 - 150
            let off := var5 c2 + bits.peek (var4 c2)
            let bits := bits.skip (var4 c2)
            let n' := (n + 2 ^ 32 - k1 % 2 ^ 32) % 2 ^ 32
            let r := sit14Copy k1 window j
              ((j + 0x40000 + (2 ^ 32 - off % 2 ^ 32)) % 2 ^ 32) cap out
            sit14Inner var1 var2 var4 var5 var7 var3 wf cap fuel n' r.2.1 r.1 bits r.2.2
    else some (n, j, window, bits, out)

/-- The outer `while (m-- && !bits->eos())` block loop of `decompress14`
(lines 1069-1116): per block, skip the 32-bit crunched size, read the 32-bit
uncrunched byte count, read the two trees, run the inner decode loop, then
realign to a byte boundary. -/
def sit14Blocks (var1 var2 var4 var5 : Nat → Nat) (tf wf cap inf : Nat) :
    Nat → Nat → (Nat → Nat) → Bits → List Nat →
    Option (Nat × (Nat → Nat) × Bits × List Nat)
  | 0, j, window, bits, out => some (j, window, bits, out)
  | m + 1, j, window, bits, out =>
    if bits.eos then some (j, window, bits, out)
    else
      let bits := bits.skip 16
      let bits := bits.skip 16
      let nlo := bits.peek 16
      let bits := bits.skip 16
      let nhi := bits.peek 16
      let bits := bits.skip 16
      let n := nlo ||| (nhi <<< 16)
      match readTree14 tf 308 (fun _ => 0) bits wf with
      | none => none
      | some (v7, bits) =>
        match readTree14 tf 75 (fun _ => 0) bits wf with
        | none => none
        | some (v3, bits) =>
          match sit14Inner var1 var2 var4 var5 v7 v3 wf cap inf n j window bits out with
          | none => none
          | some (_, j, window, bits, out) =>
            sit14Blocks var1 var2 var4 var5 tf wf cap inf m j window bits.align out

/-- `StuffItArchive::decompress14` (lines 1030-1120). `cap` is the output
capacity (`uncompressedSize`); `tf`/`wf` are tree-read and walk fuels. The
source also fills the `var8`/`var6` scratch tables during initialization;
they are never read by `decompress14` and are omitted. -/
def decompress14 (cap : Nat) (input : List Bool) (tf wf : Nat) : Option (List Nat) :=
  let v12 := sit14Var12
  let v45 := sit14Var45
  let bits : Bits := ⟨0, input⟩
  let m := bits.peek 16
  let bits := bits.skip 16
  match sit14Blocks v12.1 v12.2 v45.1 v45.2 tf wf cap (input.length + 1) m 0
      (fun _ => 0) bits [] with
  | none => none
  | some (_, _, _, out) => some out

/-! ## Fork reading (`readContentsForPathFork`, lines 319-366) -/

inductive ReadErr
  | encrypted
  | unsupported (m : Nat)
  | crcMismatch
  | sit13Failed
  | fuelOut
deriving DecidableEq

/-- The result of reading a fork: `absent` models the default
`SharedArchiveContents()` (no such file / missing resource fork), `contents`
a present byte blob (possibly empty), `err` a fatal `error()` call. -/
inductive ForkResult
  | absent
  | contents (bytes : List Nat)
  | err (e : ReadErr)
deriving DecidableEq

/-- The freshly allocated `new byte[u]` output buffer after the decoder wrote
`l`: bytes beyond what was written are indeterminate in C++ and are modelled
as zero. -/
def padTo (u : Nat) (l : List Nat) : List Nat :=
  l.take u ++ List.replicate (u - l.length) 0

/-- `StuffItArchive::readContentsForPathFork` (lines 319-366): look the path
up, handle the empty fork, check encryption, dispatch on the compression
method, and verify the payload CRC. `ReadErr.fuelOut` is an artifact of the
fuel-based decoder embeddings and corresponds to no source behavior. -/
def readForkContents (stream : List Nat) (m : FileMap) (p : MacPath)
    (isRes : Bool) : ForkResult :=
  match lookupP m p with
  | none => .absent
  | some entry =>
    let fork := if isRes then entry.resFork else entry.dataFork
    if fork.uncompressedSize = 0 then
      if isRes then .absent else .contents []
    else if fork.compression &&& 0xF0 ≠ 0 then .err .encrypted
    else
      let payload := (stream.drop fork.offset).take fork.compressedSize
      let fuel := 8 * payload.length + fork.uncompressedSize + 64
      let blockR : Option (Option (List Nat) ⊕ ReadErr) :=
        if fork.compression = 0 then some (.inl (some payload))
        else if fork.compression = 13 then
          match decompress13 fork.uncompressedSize (bitsOfBytes payload).rest fuel fuel with
          | none => some (.inl none)
          | some (false, _) => some (.inr .sit13Failed)
          | some (true, out) => some (.inl (some out))
        else if fork.compression = 14 then
          match decompress14 fork.uncompressedSize (bitsOfBytes payload).rest fuel fuel with
          | none => some (.inl none)
          | some out => some (.inl (some out))
        else some (.inr (.unsupported fork.compression))
      match blockR with
      | none => .err .fuelOut
      | some (.inr e) => .err e
      | some (.inl none) => .err .fuelOut
      | some (.inl (some raw)) =>
        let block := padTo fork.uncompressedSize raw
        if crc16 block = fork.crc then .contents block else .err .crcMismatch

/-! ## Spec-side tables for the method-14 base/extra recurrences (§4.5).
These two pairs of definitions follow the spec's words, to be compared with
the `sit14Var12`/`sit14Var45` tables built by the source. -/

/-- Spec formula `extra14[i] = max(0, (i − 4) >> 2)` (the `Nat` subtraction
truncates at 0, which is exactly the `max`). -/
def extra14spec (i : Nat) : Nat := (i - 4) >>> 2

/-- Spec recurrence `base14[0..3] = {4,5,6,7}`,
`base14[i] = base14[i−1] + (1 << extra14[i−1])`. -/
def base14spec : Nat → Nat
  | 0 => 4
  | 1 => 5
  | 2 => 6
  | 3 => 7
  | n + 4 => base14spec (n + 3) + 2 ^ extra14spec (n + 3)

/-- Spec formula `extra14o[i] = max(0, (i − 3) >> 2)`. -/
def extra14oSpec (i : Nat) : Nat := (i - 3) >>> 2

/-- Spec recurrence `base14o[0..2] = {1,2,3}`,
`base14o[i] = base14o[i−1] + (1 << extra14o[i−1])`. -/
def base14oSpec : Nat → Nat
  | 0 => 1
  | 1 => 2
  | 2 => 3
  | n + 3 => base14oSpec (n + 2) + 2 ^ extra14oSpec (n + 2)

/-! ## Concrete fixture data used by counterexamples and witnesses -/

/-- An entry whose data fork has `uncompressedSize 1`, `compressedSize 2`,
method 0, and the CRC of a single zero byte (which is 0). -/
def c1Entry : FileEntry := ⟨⟨1, 2, 0, 0, 0⟩, ForkDesc.empty⟩

def c1Map : FileMap := [([['R']], c1Entry)]

/-- Method-0 entry with matching sizes, payload `[5, 7]`. -/
def w1Entry : FileEntry := ⟨⟨2, 2, 0, crc16 [5, 7], 0⟩, ForkDesc.empty⟩

def w1Map : FileMap := [([['f']], w1Entry)]

/-- Two entries with one empty fork each; the empty forks carry encrypted-
looking compression bytes (0x8D) to witness that no encryption check runs. -/
def w9Map : FileMap :=
  [([['a']], ⟨⟨4, 4, 0, 0, 99⟩, ⟨0, 0, 0, 0, 0x8D⟩⟩),
   ([['b']], ⟨⟨0, 5, 0, 0, 0x8D⟩, ⟨4, 4, 0, 0, 0⟩⟩)]

/-- A well-formed 22-byte archive (`SIT!`, file count 0, archive size 22,
`rLau`, version + 7 reserved bytes) containing no entries. -/
def emptyArchiveBytes : List Nat :=
  [0x53, 0x49, 0x54, 0x21, 0, 0, 0, 0, 0, 22, 0x72, 0x4C, 0x61, 0x75,
   0, 0, 0, 0, 0, 0, 0, 0]

/-- First 110 bytes of a folder-start entry header: resource compression 0,
data compression 32 (start of folder), name length 1, name "A". -/
def w8Header110 : List Nat := [0, 32, 1, 65] ++ List.replicate 106 0

/-- The header above completed with its correct big-endian CRC-16. -/
def w8Stream : List Nat :=
  w8Header110 ++ [crc16 w8Header110 / 256, crc16 w8Header110 % 256]

/-- The entry name decoded from a header. -/
def nameOf (h : List Nat) : List Char :=
  ((h.drop 3).take (h.getD 2 0)).map (fun b => Char.ofNat b)

/-- The 16-byte Finder-info record taken from a header. -/
def finfoOf (h : List Nat) : List Nat := (h.drop 66).take 10 ++ List.replicate 6 0

/-- The index key of a file entry: folder prefix plus name, split at colons
(bare name when flattening). -/
def keyOf (flatten : Bool) (dirPre : List Char) (h : List Nat) : MacPath :=
  splitCol (if flatten then nameOf h else dirPre ++ nameOf h)

/-- First 110 bytes of a header whose stored CRC (appended below) is wrong. -/
def w7Head : List Nat := List.replicate 110 0

/-- A header whose stored CRC is off by one from the correct value. -/
def w7Stream : List Nat := w7Head ++ [crc16 w7Head / 256, crc16 w7Head % 256 + 1]

/-- First 110 bytes of an all-zero file-entry header (name length 0, both
fork sizes 0, data compression 0). -/
def c8Head : List Nat := List.replicate 110 0

/-- The header above completed with its correct big-endian CRC-16. -/
def c8CStream : List Nat := c8Head ++ [crc16 c8Head / 256, crc16 c8Head % 256]

/-! ## Helper lemmas -/

theorem upd_self {α : Type} (f : Nat → α) (i : Nat) (v : α) : upd f i v i = v := by
  simp [upd]

theorem upd_other {α : Type} (f : Nat → α) (i k : Nat) (v : α) (h : k ≠ i) :
    upd f i v k = f k := by
  simp [upd, h]

theorem ciEq_refl (c : Char) : ciEq c c = true := by
  simp [ciEq]

theorem strCI_refl (a : List Char) : strCI a a = true := by
  induction a with
  | nil => rfl
  | cons c t ih =>
    simp only [strCI, List.zip_cons_cons, List.all_cons, ciEq_refl, Bool.true_and] at *
    simpa using ih

theorem pathCI_refl (p : MacPath) : pathCI p p = true := by
  induction p with
  | nil => rfl
  | cons c t ih =>
    simp only [pathCI, List.zip_cons_cons, List.all_cons, strCI_refl, Bool.true_and] at *
    simpa using ih

theorem lookupP_mapModify (m : FileMap) (k : MacPath) (f : FileEntry → FileEntry) :
    lookupP (mapModify m k f) k = some (f ((lookupP m k).getD FileEntry.empty)) := by
  induction m with
  | nil => simp [mapModify, lookupP, pathCI_refl]
  | cons hd t ih =>
    by_cases h : pathCI hd.1 k = true
    · simp [mapModify, lookupP, h]
    · simp only [Bool.not_eq_true] at h
      simp [mapModify, lookupP, h, ih]

theorem emitRun_snd (c : Nat) : ∀ (b5 : Nat → Int) (i : Nat) (bi : Int),
    (emitRun c b5 i bi).2 = i + c := by
  induction c with
  | zero => intro b5 i bi; simp [emitRun]
  | succ n ih => intro b5 i bi; simp [emitRun, ih]; omega

theorem emitRun_fst (c : Nat) : ∀ (b5 : Nat → Int) (i : Nat) (bi : Int) (t : Nat),
    (emitRun c b5 i bi).1 t = if i ≤ t ∧ t < i + c then bi else b5 t := by
  induction c with
  | zero =>
    intro b5 i bi t
    simp only [emitRun]
    rw [if_neg (by omega)]
  | succ n ih =>
    intro b5 i bi t
    simp only [emitRun]
    rw [ih]
    by_cases h1 : i + 1 ≤ t ∧ t < i + 1 + n
    · rw [if_pos h1, if_pos (by omega)]
    · rw [if_neg h1]
      by_cases h2 : t = i
      · subst h2
        rw [upd_self, if_pos (by omega)]
      · rw [upd_other _ _ _ _ h2, if_neg (by omega)]

theorem getD_app_lt {α : Type} (l r : List α) (j : Nat) (d : α) (h : j < l.length) :
    (l ++ r).getD j d = l.getD j d := by
  induction l generalizing j with
  | nil => simp at h
  | cons a t ih =>
    cases j with
    | zero => simp [List.getD]
    | succ n =>
      simp only [List.length_cons, Nat.succ_lt_succ_iff] at h
      simpa [List.getD] using ih n h

theorem getD_app_ge {α : Type} (l r : List α) (j : Nat) (d : α) :
    (l ++ r).getD (l.length + j) d = r.getD j d := by
  induction l with
  | nil => simp
  | cons a t ih =>
    simpa [List.getD, Nat.succ_add] using ih

theorem getD_mem_of_lt {α : Type} (l : List α) (j : Nat) (d : α) (h : j < l.length) :
    l.getD j d ∈ l := by
  induction l generalizing j with
  | nil => simp at h
  | cons a t ih =>
    cases j with
    | zero => simp [List.getD]
    | succ n =>
      simp only [List.length_cons, Nat.succ_lt_succ_iff] at h
      simp only [List.getD_cons_succ]
      exact List.mem_cons_of_mem a (ih n h)

theorem rfindColon_high (cs : List Char) (base : Nat) (d : Nat)
    (hbase : cs.getD base 'a' = ':')
    (habove : ∀ j, base < j → j ≤ base + d → cs.getD j 'a' ≠ ':') :
    rfindColon cs (base + d) = some base := by
  induction d with
  | zero =>
    cases base with
    | zero =>
      show rfindColon cs 0 = some 0
      unfold rfindColon
      rw [if_pos hbase]
    | succ n =>
      show rfindColon cs (n + 1) = some (n + 1)
      unfold rfindColon
      rw [if_pos hbase]
  | succ n ih =>
    have hne : cs.getD (base + n + 1) 'a' ≠ ':' :=
      habove (base + n + 1) (by omega) (by omega)
    show rfindColon cs (base + n + 1) = some base
    unfold rfindColon
    rw [if_neg hne]
    exact ih fun j h1 h2 => habove j h1 (by omega)

theorem rfindColon_none (cs : List Char) (upTo : Nat)
    (h : ∀ j, j ≤ upTo → cs.getD j 'a' ≠ ':') :
    rfindColon cs upTo = none := by
  induction upTo with
  | zero =>
    unfold rfindColon
    rw [if_neg (h 0 (by omega))]
  | succ n ih =>
    unfold rfindColon
    rw [if_neg (h (n + 1) (by omega))]
    exact ih fun j hj => h j (by omega)

/-- Popping right after pushing `nm + ":"` restores the previous folder
prefix, provided the name is colon-free and the previous prefix is empty or
colon-terminated (the invariant `open` maintains). -/
theorem popDirPre_push (pre nm : List Char)
    (hnm : ':' ∉ nm) (hpre : pre = [] ∨ ∃ q, pre = q ++ [':']) :
    popDirPre (pre ++ nm ++ [':']) = pre := by
  rcases hpre with h0 | ⟨q, hq⟩
  · subst h0
    simp only [List.nil_append]
    by_cases hnil : nm = []
    · subst hnil
      decide
    · have hpos : 0 < nm.length := List.length_pos.2 hnil
      have hlen2 : 1 < (nm ++ [':']).length := by
        simp only [List.length_append, List.length_singleton]
        omega
      have hnone : rfindColon (nm ++ [':']) ((nm ++ [':']).length - 2) = none := by
        apply rfindColon_none
        intro j hj
        have hjlt : j < nm.length := by
          simp only [List.length_append, List.length_singleton] at hj
          omega
        rw [getD_app_lt _ _ _ _ hjlt]
        intro hcon
        exact hnm (hcon ▸ getD_mem_of_lt nm j 'a' hjlt)
      unfold popDirPre
      rw [if_neg (by simp), if_pos hlen2, hnone]
  · subst hq
    have hbase : ((q ++ [':']) ++ nm ++ [':']).getD q.length 'a' = ':' := by
      have he : ((q ++ [':']) ++ nm ++ [':']) = q ++ (':' :: (nm ++ [':'])) := by simp
      rw [he]
      have h2 := getD_app_ge q (':' :: (nm ++ [':'])) 0 'a'
      simpa using h2
    have habove : ∀ j, q.length < j → j ≤ q.length + nm.length →
        ((q ++ [':']) ++ nm ++ [':']).getD j 'a' ≠ ':' := by
      intro j h1 h2
      have hrep : ((q ++ [':']) ++ nm ++ [':']) = (q ++ [':']) ++ (nm ++ [':']) := by
        simp
      have hj : j = (q ++ [':']).length + (j - q.length - 1) := by
        simp only [List.length_append, List.length_singleton]
        omega
      rw [hrep, hj, getD_app_ge]
      have hjlt : j - q.length - 1 < nm.length := by omega
      rw [getD_app_lt _ _ _ _ hjlt]
      intro hcon
      exact hnm (hcon ▸ getD_mem_of_lt nm _ 'a' hjlt)
    have hup : ((q ++ [':']) ++ nm ++ [':']).length - 2 = q.length + nm.length := by
      simp only [List.length_append, List.length_singleton]
      omega
    have hfind : rfindColon ((q ++ [':']) ++ nm ++ [':'])
        (((q ++ [':']) ++ nm ++ [':']).length - 2) = some q.length := by
      rw [hup]
      exact rfindColon_high _ _ _ hbase habove
    have hlen1 : 1 < ((q ++ [':']) ++ nm ++ [':']).length := by
      simp only [List.length_append, List.length_singleton]
      omega
    have htake : ((q ++ [':']) ++ nm ++ [':']).take (q.length + 1) = q ++ [':'] := by
      have hq1 : q.length + 1 = (q ++ [':']).length := by simp
      have hrep : ((q ++ [':']) ++ nm ++ [':']) = (q ++ [':']) ++ (nm ++ [':']) := by
        simp
      rw [hq1, hrep, List.take_left]
    unfold popDirPre
    rw [if_neg (by simp), if_pos hlen1, hfind]
    exact htake

/-! ## Claim theorems: container (C1, C7, C8, C9, C10) -/

theorem getD_app_len {α : Type} (l r : List α) (d : α) :
    (l ++ r).getD l.length d = r.getD 0 d := by
  simpa using getD_app_ge l r 0 d

theorem getD_rep {α : Type} (n j : Nat) (a d : α) (h : j < n) :
    (List.replicate n a).getD j d = a := by
  induction n generalizing j with
  | zero => omega
  | succ m ih =>
    cases j with
    | zero => simp [List.replicate_succ]
    | succ k => simpa [List.replicate_succ] using ih k (by omega)

/-- C1 (amended): for a method-0 data-fork read, the reader copies the fork's
payload bytes truncated/padded to `uncompressed_size` into the output and
goes straight to the payload-CRC check; no `compressed_size =
uncompressed_size` equality is checked, so a size mismatch does not by itself
fail the read. -/
theorem c1_method0_amended (stream : List Nat) (m : FileMap) (p : MacPath)
    (e : FileEntry) (hl : lookupP m p = some e)
    (hu : e.dataFork.uncompressedSize ≠ 0)
    (hc : e.dataFork.compression = 0) :
    readForkContents stream m p false =
      (if crc16 (padTo e.dataFork.uncompressedSize
            ((stream.drop e.dataFork.offset).take e.dataFork.compressedSize)) =
          e.dataFork.crc
       then ForkResult.contents (padTo e.dataFork.uncompressedSize
            ((stream.drop e.dataFork.offset).take e.dataFork.compressedSize))
       else ForkResult.err ReadErr.crcMismatch) := by
  simp only [readForkContents, hl]
  simp only [eq_false (show ¬(false = true) by decide), if_false]
  rw [if_neg hu, if_neg (by rw [hc]; decide), if_pos hc]

/-- C1 counterexample: a method-0 fork with `compressed_size = 2` and
`uncompressed_size = 1` reads successfully (payload `[0,0]`, stored CRC 0),
so the read does not fail when the sizes differ, and only one byte (not
`compressed_size` bytes) is returned. -/
theorem c1_counterexample :
    c1Entry.dataFork.compressedSize ≠ c1Entry.dataFork.uncompressedSize ∧
    readForkContents [0, 0] c1Map [['R']] false = ForkResult.contents [0] := by
  constructor
  · decide
  · rfl

/-- C1 witness: the amended theorem applied to a concrete method-0 entry. -/
theorem c1_witness :
    readForkContents [5, 7] w1Map [['f']] false =
      (if crc16 (padTo w1Entry.dataFork.uncompressedSize
            (([5, 7].drop w1Entry.dataFork.offset).take w1Entry.dataFork.compressedSize)) =
          w1Entry.dataFork.crc
       then ForkResult.contents (padTo w1Entry.dataFork.uncompressedSize
            (([5, 7].drop w1Entry.dataFork.offset).take w1Entry.dataFork.compressedSize))
       else ForkResult.err ReadErr.crcMismatch) :=
  c1_method0_amended [5, 7] w1Map [['f']] w1Entry rfl (by decide) rfl

/-- C7: an entry header whose CRC-16 over its first 110 bytes differs from
the big-endian value in its last 2 bytes makes `openStep` fail with
`headerCrc`, and the entry loop stops with that fatal error. (The name-length
check precedes the CRC check in the source, hence the `hname` hypothesis.) -/
theorem c7_header_crc (flatten : Bool) (stream : List Nat) (st : ParseState)
    (hname : (headerAt stream st.pos).getD 2 0 ≤ 31)
    (hcrc : crc16 ((headerAt stream st.pos).take 110) ≠ be16 (headerAt stream st.pos) 110) :
    openStep flatten stream st = .err .headerCrc ∧
    ∀ fuel archiveSize, st.pos < stream.length → st.pos < archiveSize →
      openLoop flatten stream archiveSize (fuel + 1) st = some (.err .headerCrc) := by
  have hstep : openStep flatten stream st = .err .headerCrc := by
    simp only [openStep]
    rw [if_neg (by omega), if_pos hcrc]
  refine ⟨hstep, fun fuel archiveSize h1 h2 => ?_⟩
  simp only [openLoop]
  rw [if_pos ⟨h1, h2⟩, hstep]

/-- C7 witness: a header whose stored CRC is one more than the correct
value. -/
theorem c7_witness :
    openStep false w7Stream ⟨0, [], [], []⟩ = .err .headerCrc ∧
    openLoop false w7Stream 200 5 ⟨0, [], [], []⟩ = some (.err .headerCrc) := by
  have hL : w7Head.length = 110 := by
    show (List.replicate 110 (0 : Nat)).length = 110
    rw [List.length_replicate]
  have hlen : w7Stream.length = 112 := by
    show (w7Head ++ [crc16 w7Head / 256, crc16 w7Head % 256 + 1]).length = 112
    rw [List.length_append, hL]
    rfl
  have hhdr : headerAt w7Stream 0 = w7Stream := by
    unfold headerAt
    rw [List.drop_zero]
    exact List.take_of_length_le (by omega)
  have htake : w7Stream.take 110 = w7Head := by
    show (w7Head ++ [crc16 w7Head / 256, crc16 w7Head % 256 + 1]).take 110 = w7Head
    rw [hL.symm, List.take_left]
  have hg110 : w7Stream.getD 110 0 = crc16 w7Head / 256 := by
    show (w7Head ++ [crc16 w7Head / 256, crc16 w7Head % 256 + 1]).getD 110 0 = _
    rw [show (110 : Nat) = w7Head.length from hL.symm, getD_app_len]
    rfl
  have hg111 : w7Stream.getD 111 0 = crc16 w7Head % 256 + 1 := by
    show (w7Head ++ [crc16 w7Head / 256, crc16 w7Head % 256 + 1]).getD 111 0 = _
    rw [show (111 : Nat) = w7Head.length + 1 from by rw [hL], getD_app_ge]
    rfl
  have hbe : be16 w7Stream 110 = crc16 w7Head + 1 := by
    unfold be16
    rw [hg110, show (110 : Nat) + 1 = 111 from rfl, hg111]
    omega
  have hne : crc16 ((headerAt w7Stream 0).take 110) ≠ be16 (headerAt w7Stream 0) 110 := by
    rw [hhdr, htake, hbe]
    omega
  have hname : (headerAt w7Stream 0).getD 2 0 ≤ 31 := by
    rw [hhdr]
    have h2 : w7Stream.getD 2 0 = 0 := by
      show (w7Head ++ [crc16 w7Head / 256, crc16 w7Head % 256 + 1]).getD 2 0 = 0
      rw [getD_app_lt _ _ _ _ (by rw [hL]; omega)]
      exact getD_rep 110 2 0 0 (by omega)
    omega
  have h := c7_header_crc false w7Stream ⟨0, [], [], []⟩ hname hne
  refine ⟨h.1, h.2 4 200 ?_ ?_⟩
  · show (0 : Nat) < w7Stream.length
    omega
  · show (0 : Nat) < 200
    omega

/-- C8 (amended): with a valid header, `dataForkCompression & 0x6F = 32`
pushes `name + ":"` onto the folder prefix (when not flattening) and records
nothing; 33 pops exactly one folder level and records nothing; any other
value always records Finder metadata under the key `prefix + name` split at
colons (bare name when flattening), and records a file entry under that key
exactly when at least one fork has a nonzero uncompressed size — an entry
whose two forks are both empty records no file entry. -/
theorem c8_dir_dispatch (flatten : Bool) (stream : List Nat) (st : ParseState)
    (hname : (headerAt stream st.pos).getD 2 0 ≤ 31)
    (hcrc : crc16 ((headerAt stream st.pos).take 110) = be16 (headerAt stream st.pos) 110) :
    ((headerAt stream st.pos).getD 1 0 &&& 0x6F = 32 →
      openStep flatten stream st = .ok ⟨st.pos + 112,
        if flatten then st.dirPre else st.dirPre ++ nameOf (headerAt stream st.pos) ++ [':'],
        st.map, st.meta⟩) ∧
    ((headerAt stream st.pos).getD 1 0 &&& 0x6F = 33 →
      openStep flatten stream st = .ok ⟨st.pos + 112,
        if flatten then st.dirPre else popDirPre st.dirPre, st.map, st.meta⟩) ∧
    (∀ pre nm : List Char, ':' ∉ nm → (pre = [] ∨ ∃ q, pre = q ++ [':']) →
      popDirPre (pre ++ nm ++ [':']) = pre) ∧
    ((headerAt stream st.pos).getD 1 0 &&& 0x6F ≠ 32 →
     (headerAt stream st.pos).getD 1 0 &&& 0x6F ≠ 33 →
      (match openStep flatten stream st with
       | .err _ => False
       | .ok st' =>
         st'.pos = st.pos + 112 + be32 (headerAt stream st.pos) 96 +
           be32 (headerAt stream st.pos) 92 ∧
         st'.dirPre = st.dirPre ∧
         st'.meta = metaSet st.meta (keyOf flatten st.dirPre (headerAt stream st.pos))
           (finfoOf (headerAt stream st.pos)) ∧
         (be32 (headerAt stream st.pos) 88 = 0 → be32 (headerAt stream st.pos) 84 = 0 →
           st'.map = st.map) ∧
         (be32 (headerAt stream st.pos) 88 ≠ 0 ∨ be32 (headerAt stream st.pos) 84 ≠ 0 →
           (lookupP st'.map (keyOf flatten st.dirPre (headerAt stream st.pos))).isSome =
             true))) := by
  refine ⟨?_, ?_, popDirPre_push, ?_⟩
  · intro hdc
    simp only [openStep]
    rw [if_neg (by omega), if_neg (not_not_intro hcrc), if_pos hdc]
    simp only [nameOf]
  · intro hdc
    simp only [openStep]
    rw [if_neg (by omega), if_neg (not_not_intro hcrc), if_neg (by omega), if_pos hdc]
  · intro h32 h33
    simp only [openStep]
    rw [if_neg (by omega), if_neg (not_not_intro hcrc), if_neg h32, if_neg h33]
    refine ⟨rfl, rfl, by simp only [keyOf, nameOf, finfoOf], ?_, ?_⟩
    · intro hz1 hz2
      show (if be32 (headerAt stream st.pos) 84 ≠ 0 then _ else _) = st.map
      rw [if_neg (not_not_intro hz2), if_neg (not_not_intro hz1)]
    · intro hor
      simp only [keyOf, nameOf]
      by_cases hd : be32 (headerAt stream st.pos) 88 = 0
      · have hr : be32 (headerAt stream st.pos) 84 ≠ 0 := by
          rcases hor with h | h
          · exact absurd hd h
          · exact h
        show (lookupP (if be32 (headerAt stream st.pos) 84 ≠ 0
          then _ else _) _).isSome = true
        rw [if_pos hr, if_neg (not_not_intro hd), lookupP_mapModify]
        rfl
      · show (lookupP (if be32 (headerAt stream st.pos) 84 ≠ 0
          then _ else _) _).isSome = true
        by_cases hr : be32 (headerAt stream st.pos) 84 = 0
        · rw [if_neg (not_not_intro hr), if_pos hd, lookupP_mapModify]
          rfl
        · rw [if_pos hr, if_pos hd, lookupP_mapModify]
          rfl

/-- C8 counterexample: an all-zero (valid-CRC) header is a file entry
(`dir_check = 0`) whose fork sizes are both zero; `openStep` records its
Finder metadata but no file entry — the entry map stays empty, refuting
"any other value records a file entry". -/
theorem c8_counterexample :
    (headerAt c8CStream 0).getD 1 0 &&& 0x6F ≠ 32 ∧
    (headerAt c8CStream 0).getD 1 0 &&& 0x6F ≠ 33 ∧
    crc16 ((headerAt c8CStream 0).take 110) = be16 (headerAt c8CStream 0) 110 ∧
    openStep false c8CStream ⟨0, [], [], []⟩ =
      .ok ⟨112, [], [], [([[]], List.replicate 16 0)]⟩ := by
  have hL : c8Head.length = 110 := by
    show (List.replicate 110 (0 : Nat)).length = 110
    rw [List.length_replicate]
  have hlen : c8CStream.length = 112 := by
    show (c8Head ++ [crc16 c8Head / 256, crc16 c8Head % 256]).length = 112
    rw [List.length_append, hL]
    rfl
  have hhdr : headerAt c8CStream 0 = c8CStream := by
    unfold headerAt
    rw [List.drop_zero]
    exact List.take_of_length_le (by omega)
  have hget : ∀ j, j < 110 → c8CStream.getD j 0 = 0 := by
    intro j hj
    show (c8Head ++ [crc16 c8Head / 256, crc16 c8Head % 256]).getD j 0 = 0
    rw [getD_app_lt _ _ _ _ (by rw [hL]; omega)]
    exact getD_rep 110 j 0 0 (by omega)
  have htake : c8CStream.take 110 = c8Head := by
    show (c8Head ++ [crc16 c8Head / 256, crc16 c8Head % 256]).take 110 = c8Head
    rw [hL.symm, List.take_left]
  have hg110 : c8CStream.getD 110 0 = crc16 c8Head / 256 := by
    show (c8Head ++ [crc16 c8Head / 256, crc16 c8Head % 256]).getD 110 0 = _
    rw [show (110 : Nat) = c8Head.length from hL.symm, getD_app_len]
    rfl
  have hg111 : c8CStream.getD 111 0 = crc16 c8Head % 256 := by
    show (c8Head ++ [crc16 c8Head / 256, crc16 c8Head % 256]).getD 111 0 = _
    rw [show (111 : Nat) = c8Head.length + 1 from by rw [hL], getD_app_ge]
    rfl
  have hbe : be16 c8CStream 110 = crc16 c8Head := by
    unfold be16
    rw [hg110, show (110 : Nat) + 1 = 111 from rfl, hg111]
    omega
  have hcrceq : crc16 (c8CStream.take 110) = be16 c8CStream 110 := by
    rw [htake, hbe]
  have hbe32 : ∀ i, i + 3 < 110 → be32 c8CStream i = 0 := by
    intro i hi
    unfold be32
    rw [hget i (by omega), hget (i + 1) (by omega), hget (i + 2) (by omega),
      hget (i + 3) (by omega)]
  have hdc : c8CStream.getD 1 0 &&& 0x6F = 0 := by
    rw [hget 1 (by omega)]
    decide
  refine ⟨by rw [hhdr, hdc]; omega, by rw [hhdr, hdc]; omega,
    by rw [hhdr]; exact hcrceq, ?_⟩
  simp only [openStep, hhdr]
  rw [if_neg (by rw [hget 2 (by omega)]; omega),
    if_neg (not_not_intro hcrceq),
    if_neg (by rw [hdc]; omega), if_neg (by rw [hdc]; omega)]
  rw [hget 2 (by omega), hbe32 88 (by omega), hbe32 84 (by omega),
    hbe32 96 (by omega), hbe32 92 (by omega)]
  have hfinfo : (c8CStream.drop 66).take 10 ++ List.replicate 6 0 =
      List.replicate 16 0 := by
    have hds : c8Head.drop 66 = List.replicate 44 0 := by
      show (List.replicate 110 (0 : Nat)).drop 66 = List.replicate 44 0
      rw [List.drop_replicate]
    have hdrop : c8CStream.drop 66 =
        List.replicate 44 0 ++ [crc16 c8Head / 256, crc16 c8Head % 256] := by
      show (c8Head ++ [crc16 c8Head / 256, crc16 c8Head % 256]).drop 66 = _
      rw [List.drop_append_of_le_length (by rw [hL]; omega), hds]
    rw [hdrop, List.take_append_of_le_length (by rw [List.length_replicate]; omega),
      List.take_replicate]
    rw [show min 10 44 = 10 by omega, ← List.replicate_add]
  rw [hfinfo]
  rfl

/-- C8 witness: a valid folder-start header (`dir_check = 32`, name "A")
pushes the name onto the folder prefix and records nothing. -/
theorem c8_witness :
    openStep false w8Stream ⟨0, [], [], []⟩ =
      .ok ⟨112, nameOf (headerAt w8Stream 0) ++ [':'], [], []⟩ := by
  have hlen110 : w8Header110.length = 110 := by
    show ([0, 32, 1, 65] ++ List.replicate 106 (0 : Nat)).length = 110
    rw [List.length_append, List.length_replicate]
    rfl
  have hhdr : headerAt w8Stream 0 = w8Stream := by
    unfold headerAt
    rw [List.drop_zero]
    refine List.take_of_length_le ?_
    show (w8Header110 ++ [crc16 w8Header110 / 256, crc16 w8Header110 % 256]).length ≤ 112
    rw [List.length_append, hlen110]
    simp
  have htake : w8Stream.take 110 = w8Header110 := by
    show (w8Header110 ++ [crc16 w8Header110 / 256, crc16 w8Header110 % 256]).take 110 =
      w8Header110
    rw [hlen110.symm, List.take_left]
  have hg110 : w8Stream.getD 110 0 = crc16 w8Header110 / 256 := by
    show (w8Header110 ++ [crc16 w8Header110 / 256, crc16 w8Header110 % 256]).getD 110 0 = _
    rw [show (110 : Nat) = w8Header110.length from hlen110.symm, getD_app_len]
    rfl
  have hg111 : w8Stream.getD 111 0 = crc16 w8Header110 % 256 := by
    show (w8Header110 ++ [crc16 w8Header110 / 256, crc16 w8Header110 % 256]).getD 111 0 = _
    rw [show (111 : Nat) = w8Header110.length + 1 from by rw [hlen110], getD_app_ge]
    rfl
  have hcrceq : crc16 ((headerAt w8Stream 0).take 110) =
      be16 (headerAt w8Stream 0) 110 := by
    rw [hhdr, htake]
    unfold be16
    rw [hg110, show (110 : Nat) + 1 = 111 from rfl, hg111]
    omega
  have hg2 : w8Stream.getD 2 0 = 1 := by
    show (w8Header110 ++ [crc16 w8Header110 / 256, crc16 w8Header110 % 256]).getD 2 0 = 1
    rw [getD_app_lt _ _ _ _ (by rw [hlen110]; omega)]
    rfl
  have hg1 : w8Stream.getD 1 0 = 32 := by
    show (w8Header110 ++ [crc16 w8Header110 / 256, crc16 w8Header110 % 256]).getD 1 0 = 32
    rw [getD_app_lt _ _ _ _ (by rw [hlen110]; omega)]
    rfl
  have hname : (headerAt w8Stream 0).getD 2 0 ≤ 31 := by
    rw [hhdr, hg2]
    omega
  have hdc : (headerAt w8Stream 0).getD 1 0 &&& 0x6F = 32 := by
    rw [hhdr, hg1]
    decide
  exact (c8_dir_dispatch false w8Stream ⟨0, [], [], []⟩ hname hcrceq).1 hdc

/-- C9: for a path present in the index, reading a fork with
`uncompressedSize = 0` returns the empty blob for the data fork and the
absent signal for the resource fork, and never an error — in particular
neither `encrypted` nor `unsupported` — whatever the fork's compression
byte is. -/
theorem c9_zero_fork (stream : List Nat) (m : FileMap) (p : MacPath)
    (e : FileEntry) (isRes : Bool) (hl : lookupP m p = some e)
    (hz : (if isRes then e.resFork else e.dataFork).uncompressedSize = 0) :
    readForkContents stream m p isRes =
      (if isRes then ForkResult.absent else ForkResult.contents []) ∧
    ∀ er, readForkContents stream m p isRes ≠ ForkResult.err er := by
  have h : readForkContents stream m p isRes =
      (if isRes then ForkResult.absent else ForkResult.contents []) := by
    simp only [readForkContents, hl]
    rw [if_pos hz]
  refine ⟨h, fun er => ?_⟩
  rw [h]
  cases isRes <;> simp

/-- C9 witness: the resource fork of entry `a` (size 0, compression byte
0x8D) reads as absent; the data fork of entry `b` (size 0, compression byte
0x8D) reads as the empty byte sequence. -/
theorem c9_witness :
    readForkContents [] w9Map [['a']] true = ForkResult.absent ∧
    readForkContents [] w9Map [['b']] false = ForkResult.contents [] := by
  constructor
  · exact (c9_zero_fork [] w9Map [['a']] ⟨⟨4, 4, 0, 0, 99⟩, ⟨0, 0, 0, 0, 0x8D⟩⟩ true
      rfl rfl).1
  · exact (c9_zero_fork [] w9Map [['b']] ⟨⟨0, 5, 0, 0, 0x8D⟩, ⟨4, 4, 0, 0, 0⟩⟩ false
      rfl rfl).1

/-- C10: `close` resets the stream and clears the entry map but not the
Finder-metadata map; reopening the same object on a fresh entry-less archive
therefore still answers `read_finder_info` for a path of the previously
opened archive, while `hasFile` for it is false. -/
theorem c10_close_keeps_metadata (a : ArchObj) (p : MacPath) (fi : List Nat)
    (flatten : Bool) (h : lookupP a.meta p = some fi) :
    (archClose a).map = [] ∧ (archClose a).meta = a.meta ∧
    (archClose a).stream = none ∧
    archOpen a (some emptyArchiveBytes) flatten =
      some (.done ⟨some emptyArchiveBytes, [], a.meta, flatten⟩ true) ∧
    readFinderInfo ⟨some emptyArchiveBytes, [], a.meta, flatten⟩ p = some fi ∧
    hasFileA ⟨some emptyArchiveBytes, [], a.meta, flatten⟩ p = false := by
  refine ⟨rfl, rfl, rfl, ?_, h, rfl⟩
  simp only [archOpen, archClose, stuffOpenStream]
  norm_num [magicList, be32, emptyArchiveBytes, List.getD]
  simp only [openLoop]
  norm_num [emptyArchiveBytes]

/-- C10 witness: a concrete archive object holding metadata for path `x`. -/
theorem c10_witness :
    archOpen ⟨none, [], [([['x']], List.replicate 16 7)], false⟩
        (some emptyArchiveBytes) false =
      some (.done ⟨some emptyArchiveBytes, [], [([['x']], List.replicate 16 7)], false⟩
        true) ∧
    readFinderInfo ⟨some emptyArchiveBytes, [], [([['x']], List.replicate 16 7)], false⟩
        [['x']] = some (List.replicate 16 7) := by
  have h := c10_close_keeps_metadata ⟨none, [], [([['x']], List.replicate 16 7)], false⟩
    [['x']] (List.replicate 16 7) false rfl
  exact ⟨h.2.2.2.1, h.2.2.2.2.1⟩

/-! ## Claim theorems: method 14 (C3, C6) -/

theorem Bits.skip_skip (b : Bits) (m n : Nat) : (b.skip m).skip n = b.skip (m + n) := by
  show (⟨b.pos + m + n, (b.rest.drop m).drop n⟩ : Bits) =
    ⟨b.pos + (m + n), b.rest.drop (m + n)⟩
  rw [Bits.mk.injEq]
  refine ⟨by omega, ?_⟩
  rw [List.drop_drop]

/-- C3: the method-14 length table satisfies the spec recurrence
(`base14[c] = var2[c] + 4`, `extra14[c] = var1[c]`), the offset table
satisfies the spec recurrence (`base14o[c] = var5[c]`,
`extra14o[c] = var4[c]`), a back-reference step of the inner decode loop
emits a copy of length `var2 c + 4 + read_bits(var1 c)` starting at
uint32 `(j + 0x40000 - offset)` masked into the 256 KiB window, that start
equals `(write_pos + 0x40000 − offset) mod 0x40000` in exact integer
arithmetic, and the copy loop's first read is at `start mod 0x40000`. -/
theorem c3_method14_length_offset :
    (∀ c, c < 52 → sit14Var12.2 c + 4 = base14spec c ∧ sit14Var12.1 c = extra14spec c) ∧
    (∀ c, c < 75 → sit14Var45.2 c = base14oSpec c ∧ sit14Var45.1 c = extra14oSpec c) ∧
    (∀ (var1 var2 var4 var5 var7 var3 : Nat → Nat) (wf cap fuel n j : Nat)
       (window : Nat → Nat) (bits : Bits) (out : List Nat) (i0 : Nat) (bits1 : Bits),
       n ≠ 0 → bits.eos = false →
       sit14WalkTree var7 616 wf 0 bits = some (i0, bits1) →
       872 ≤ i0 →
       sit14Inner var1 var2 var4 var5 var7 var3 wf cap (fuel + 1) n j window bits out =
         (match sit14WalkTree var3 150 wf 0
             (bits1.skip (var1 (i0 - 616 - 0x100))) with
          | none => none
          | some (i2, bits3) =>
            sit14Inner var1 var2 var4 var5 var7 var3 wf cap fuel
              ((n + 2 ^ 32 - (var2 (i0 - 616 - 0x100) + 4 +
                bits1.peek (var1 (i0 - 616 - 0x100))) % 2 ^ 32) % 2 ^ 32)
              (sit14Copy (var2 (i0 - 616 - 0x100) + 4 +
                  bits1.peek (var1 (i0 - 616 - 0x100))) window j
                ((j + 0x40000 + (2 ^ 32 - (var5 (i2 - 150) +
                  bits3.peek (var4 (i2 - 150))) % 2 ^ 32)) % 2 ^ 32) cap out).2.1
              (sit14Copy (var2 (i0 - 616 - 0x100) + 4 +
                  bits1.peek (var1 (i0 - 616 - 0x100))) window j
                ((j + 0x40000 + (2 ^ 32 - (var5 (i2 - 150) +
                  bits3.peek (var4 (i2 - 150))) % 2 ^ 32)) % 2 ^ 32) cap out).1
              (bits3.skip (var4 (i2 - 150)))
              (sit14Copy (var2 (i0 - 616 - 0x100) + 4 +
                  bits1.peek (var1 (i0 - 616 - 0x100))) window j
                ((j + 0x40000 + (2 ^ 32 - (var5 (i2 - 150) +
                  bits3.peek (var4 (i2 - 150))) % 2 ^ 32)) % 2 ^ 32) cap out).2.2)) ∧
    (∀ j off : Nat, off < 2 ^ 32 →
      ((((j + 0x40000 + (2 ^ 32 - off % 2 ^ 32)) % 2 ^ 32) % 0x40000 : Nat) : Int) =
        ((j : Int) + 0x40000 - off) % 0x40000) ∧
    (∀ (k : Nat) (window : Nat → Nat) (j l cap : Nat) (out : List Nat),
      sit14Copy (k + 1) window j l cap out =
        sit14Copy k (upd window j (window (l % 0x40000))) ((j + 1) % 0x40000)
          (l % 0x40000 + 1) cap (wrCap cap out (window (l % 0x40000)))) := by
  refine ⟨by decide, by decide, ?_, ?_, ?_⟩
  · intro var1 var2 var4 var5 var7 var3 wf cap fuel n j window bits out i0 bits1
      hn heos hw hs
    simp only [sit14Inner]
    rw [if_pos ⟨hn, heos⟩]
    simp only [hw]
    rw [if_neg (by omega)]
  · intro j off h
    have hdvd : (0x40000 : Nat) ∣ 2 ^ 32 := by norm_num
    rw [Nat.mod_mod_of_dvd _ hdvd]
    omega
  · intro k window j l cap out
    rfl

/-- C3 witness: a concrete back-reference step (uniform tree sending every
node to leaf 900, i.e. length code 28) together with the first table
entries. -/
theorem c3_witness :
    (sit14Var12.2 0 + 4 = base14spec 0 ∧ sit14Var12.1 0 = extra14spec 0) ∧
    (sit14Var45.2 0 = base14oSpec 0 ∧ sit14Var45.1 0 = extra14oSpec 0) ∧
    sit14Inner (fun _ => 0) (fun _ => 0) (fun _ => 0) (fun _ => 0) (fun _ => 900)
        (fun _ => 0) 2 0 (4 + 1) 5 0 (fun _ => 0) ⟨0, [false, false, false]⟩ [] =
      (match sit14WalkTree (fun _ => 0) 150 2 0
          ((⟨1, [false, false]⟩ : Bits).skip ((fun (_ : Nat) => 0) (900 - 616 - 0x100))) with
       | none => none
       | some (i2, bits3) =>
         sit14Inner (fun _ => 0) (fun _ => 0) (fun _ => 0) (fun _ => 0) (fun _ => 900)
           (fun _ => 0) 2 0 4
           ((5 + 2 ^ 32 - ((fun (_ : Nat) => 0) (900 - 616 - 0x100) + 4 +
             (⟨1, [false, false]⟩ : Bits).peek ((fun (_ : Nat) => 0) (900 - 616 - 0x100))) %
               2 ^ 32) % 2 ^ 32)
           (sit14Copy ((fun (_ : Nat) => 0) (900 - 616 - 0x100) + 4 +
               (⟨1, [false, false]⟩ : Bits).peek ((fun (_ : Nat) => 0) (900 - 616 - 0x100)))
             (fun _ => 0) 0
             ((0 + 0x40000 + (2 ^ 32 - ((fun (_ : Nat) => 0) (i2 - 150) +
               bits3.peek ((fun (_ : Nat) => 0) (i2 - 150))) % 2 ^ 32)) % 2 ^ 32) 0 []).2.1
           (sit14Copy ((fun (_ : Nat) => 0) (900 - 616 - 0x100) + 4 +
               (⟨1, [false, false]⟩ : Bits).peek ((fun (_ : Nat) => 0) (900 - 616 - 0x100)))
             (fun _ => 0) 0
             ((0 + 0x40000 + (2 ^ 32 - ((fun (_ : Nat) => 0) (i2 - 150) +
               bits3.peek ((fun (_ : Nat) => 0) (i2 - 150))) % 2 ^ 32)) % 2 ^ 32) 0 []).1
           (bits3.skip ((fun (_ : Nat) => 0) (i2 - 150)))
           (sit14Copy ((fun (_ : Nat) => 0) (900 - 616 - 0x100) + 4 +
               (⟨1, [false, false]⟩ : Bits).peek ((fun (_ : Nat) => 0) (900 - 616 - 0x100)))
             (fun _ => 0) 0
             ((0 + 0x40000 + (2 ^ 32 - ((fun (_ : Nat) => 0) (i2 - 150) +
               bits3.peek ((fun (_ : Nat) => 0) (i2 - 150))) % 2 ^ 32)) % 2 ^ 32) 0 []).2.2) := by
  refine ⟨c3_method14_length_offset.1 0 (by decide),
          c3_method14_length_offset.2.1 0 (by decide), ?_⟩
  exact c3_method14_length_offset.2.2.1 (fun _ => 0) (fun _ => 0) (fun _ => 0)
    (fun _ => 0) (fun _ => 900) (fun _ => 0) 2 0 4 5 0 (fun _ => 0)
    ⟨0, [false, false, false]⟩ [] 900 ⟨1, [false, false]⟩
    (by decide) (by decide) (by decide) (by decide)

/-- C6: method 14 reads a 16-bit block count first; each block iteration
decrements the counter — also when the block's 32-bit uncompressed byte
count is 0 — skips the 32-bit crunched-size field, reads the two trees,
decodes nothing when the byte count is 0, and realigns the bit reader to a
byte boundary before the next block. -/
theorem c6_method14_block_loop :
    (∀ cap input tf wf,
      decompress14 cap input tf wf =
        (match sit14Blocks sit14Var12.1 sit14Var12.2 sit14Var45.1 sit14Var45.2 tf wf cap
            (input.length + 1) ((⟨0, input⟩ : Bits).peek 16) 0 (fun _ => 0)
            ((⟨0, input⟩ : Bits).skip 16) [] with
         | none => none
         | some (_, _, _, out) => some out)) ∧
    (∀ (var1 var2 var4 var5 : Nat → Nat) (tf wf cap inf m j : Nat)
       (window : Nat → Nat) (bits : Bits) (out : List Nat),
      bits.eos = false →
      (bits.skip 32).peek 16 ||| ((bits.skip 48).peek 16 <<< 16) = 0 →
      inf ≠ 0 →
      sit14Blocks var1 var2 var4 var5 tf wf cap inf (m + 1) j window bits out =
        (match readTree14 tf 308 (fun _ => 0) (bits.skip 64) wf with
         | none => none
         | some (_, bitsA) =>
           match readTree14 tf 75 (fun _ => 0) bitsA wf with
           | none => none
           | some (_, bitsB) =>
             sit14Blocks var1 var2 var4 var5 tf wf cap inf m j window bitsB.align out)) ∧
    (∀ (var1 var2 var4 var5 var7 var3 : Nat → Nat) (wf cap inf j : Nat)
       (window : Nat → Nat) (bits : Bits) (out : List Nat),
      sit14Inner var1 var2 var4 var5 var7 var3 wf cap (inf + 1) 0 j window bits out =
        some (0, j, window, bits, out)) ∧
    (∀ b : Bits, b.align.pos % 8 = 0) := by
  have hstop : ∀ (var1 var2 var4 var5 var7 var3 : Nat → Nat) (wf cap inf j : Nat)
      (window : Nat → Nat) (bits : Bits) (out : List Nat),
      sit14Inner var1 var2 var4 var5 var7 var3 wf cap (inf + 1) 0 j window bits out =
        some (0, j, window, bits, out) := by
    intro var1 var2 var4 var5 var7 var3 wf cap inf j window bits out
    simp only [sit14Inner]
    rw [if_neg (by simp)]
  refine ⟨fun cap input tf wf => rfl, ?_, hstop, ?_⟩
  · intro var1 var2 var4 var5 tf wf cap inf m j window bits out heos hn hinf
    obtain ⟨k, rfl⟩ := Nat.exists_eq_succ_of_ne_zero hinf
    simp only [sit14Blocks]
    rw [if_neg (by simp [heos])]
    simp only [Bits.skip_skip]
    norm_num
    rw [hn]
    rcases h1 : readTree14 tf 308 (fun _ => 0) (bits.skip 64) wf with _ | ⟨v7, bA⟩
    · simp only [h1]
    · simp only [h1]
      rcases h2 : readTree14 tf 75 (fun _ => 0) bA wf with _ | ⟨v3, bB⟩
      · simp only [h2]
      · simp only [h2, hstop]
  · intro b
    unfold Bits.align
    by_cases h : b.pos % 8 = 0
    · rw [if_pos h]
      exact h
    · rw [if_neg h]
      show (b.pos + (8 - b.pos % 8)) % 8 = 0
      omega

/-- C6 witness: the block-step equation on a concrete 70-bit all-zero
stream (so the block's uncompressed byte count is 0), block counter 1. -/
theorem c6_witness :
    sit14Blocks (fun _ => 0) (fun _ => 0) (fun _ => 0) (fun _ => 0) 0 0 0 1 (0 + 1) 0
        (fun _ => 0) ⟨0, List.replicate 70 false⟩ [] =
      (match readTree14 0 308 (fun _ => 0) ((⟨0, List.replicate 70 false⟩ : Bits).skip 64) 0 with
       | none => none
       | some (_, bitsA) =>
         match readTree14 0 75 (fun _ => 0) bitsA 0 with
         | none => none
         | some (_, bitsB) =>
           sit14Blocks (fun _ => 0) (fun _ => 0) (fun _ => 0) (fun _ => 0) 0 0 0 1 0 0
             (fun _ => 0) bitsB.align []) :=
  c6_method14_block_loop.2.1 (fun _ => 0) (fun _ => 0) (fun _ => 0) (fun _ => 0)
    0 0 0 1 0 0 (fun _ => 0) ⟨0, List.replicate 70 false⟩ []
    (by decide) (by decide) (by decide)

/-! ## Claim theorems: method 13 (C2, C4, C5) -/

/-- C4: `decompress13` reads one control byte and dispatches on its high
nibble `i`: `i > 5` fails; `i ∈ 1..5` decodes static profile `i−1` (nibble
stream at `SIT13StaticPos[i−1]`) giving two 0x141-length primary trees and an
offset-prefix tree of `SIT13StaticBits[i−1]` code lengths; `i = 0` reads a
0x141-entry code-length sequence for the first primary tree, copies it into
the second exactly when bit 3 of the control byte is set (otherwise reads
another 0x141-entry sequence), then reads an offset-prefix tree of
`(ctrl & 7) + 10` code lengths. -/
theorem c4_method13_dispatch (cap : Nat) (input : List Bool) (fuel wf : Nat) :
    (5 < (⟨0, input⟩ : Bits).peek 8 >>> 4 →
      decompress13 cap input fuel wf = some (false, [])) ∧
    (1 ≤ (⟨0, input⟩ : Bits).peek 8 >>> 4 → (⟨0, input⟩ : Bits).peek 8 >>> 4 ≤ 5 →
      decompress13 cap input fuel wf =
        (let i := (⟨0, input⟩ : Bits).peek 8 >>> 4
         let text := sit13TextRun (SIT13StaticPos.getD (i - 1) 0) (i % 2)
         let p1 := SIT13_CreateStaticTree (s13MarkFree mkBuffer1.1) 0x141 text
         let p2 := SIT13_CreateStaticTree p1.1 0x141 (fun t => text (0x141 + t))
         let p3 := SIT13_CreateStaticTree p2.1 (SIT13StaticBits.getD (i - 1) 0)
           (fun t => text (0x282 + t))
         SIT13_Extract p3.1.buffer4 p1.2 p2.2 p3.2 wf cap fuel p1.2 (fun _ => 0) 0
           ((⟨0, input⟩ : Bits).skip 8) [])) ∧
    ((⟨0, input⟩ : Bits).peek 8 >>> 4 = 0 →
      decompress13 cap input fuel wf =
        (let j := (⟨0, input⟩ : Bits).peek 8
         let q1 := SIT13_CreateTree (s13MarkFree mkBuffer1.1) mkBuffer1.2
           ((⟨0, input⟩ : Bits).skip 8) 0x141
         let q2 := if j &&& 8 ≠ 0 then (q1.1, q1.2.1, q1.2.2)
                   else SIT13_CreateTree q1.1 mkBuffer1.2 q1.2.2 0x141
         let q3 := SIT13_CreateTree q2.1 mkBuffer1.2 q2.2.2 ((j &&& 7) + 10)
         SIT13_Extract q3.1.buffer4 q1.2.1 q2.2.1 q3.2.1 wf cap fuel q1.2.1
           (fun _ => 0) 0 q3.2.2 [])) := by
  refine ⟨?_, ?_, ?_⟩
  · intro h
    simp only [decompress13]
    rw [if_pos h]
  · intro h1 h2
    simp only [decompress13]
    rw [if_neg (by omega), if_pos (by omega)]
    simp only [SIT13InitInfo]
  · intro h0
    simp only [decompress13]
    rw [h0]
    rw [if_neg (by omega), if_neg (by omega)]

/-- C4 witness: a control byte with high nibble 15 makes the decode fail. -/
theorem c4_witness :
    decompress13 0 (List.replicate 8 true) 3 3 = some (false, []) :=
  (c4_method13_dispatch 0 (List.replicate 8 true) 3 3).1 (by decide)

theorem emitRun_upd_fst (c : Nat) (b5 : Nat → Int) (i : Nat) (bi : Int) (t : Nat) :
    upd (emitRun c b5 i bi).1 (i + c) bi t =
      if i ≤ t ∧ t < i + c + 1 then bi else b5 t := by
  by_cases h : t = i + c
  · subst h
    rw [upd_self, if_pos (by omega)]
  · rw [upd_other _ _ _ _ h, emitRun_fst]
    by_cases h2 : i ≤ t ∧ t < i + c
    · rw [if_pos h2, if_pos (by omega)]
    · rw [if_neg h2, if_neg (by omega)]

/-- C5: in the dynamic code-length reader, symbol 34 emits the current
length one additional time only if the next bit is 1; symbol 35 emits it
`2 + next_3_bits` additional times; symbol 36 emits it `10 + next_6_bits`
additional times (in each case on top of the one store every loop iteration
performs). -/
theorem c5_codelen_repeats (buffer1 : Nat → SIT13Buffer) (num f i : Nat)
    (b5 : Nat → Int) (bi : Int) (bits : Bits) (hi : i < num) :
    ((buffer1 (bits.peek 12)).data = 0x22 →
      sit13CreateLoop buffer1 num (f + 1) i b5 bi bits =
        (if (bits.skip (buffer1 (bits.peek 12)).bits.toNat).peek 1 = 1 then
          sit13CreateLoop buffer1 num f (i + 2) (upd (upd b5 i bi) (i + 1) bi) bi
            ((bits.skip (buffer1 (bits.peek 12)).bits.toNat).skip 1)
         else
          sit13CreateLoop buffer1 num f (i + 1) (upd b5 i bi) bi
            ((bits.skip (buffer1 (bits.peek 12)).bits.toNat).skip 1))) ∧
    ((buffer1 (bits.peek 12)).data = 0x23 →
      sit13CreateLoop buffer1 num (f + 1) i b5 bi bits =
        sit13CreateLoop buffer1 num f
          (i + ((bits.skip (buffer1 (bits.peek 12)).bits.toNat).peek 3 + 2) + 1)
          (upd (emitRun ((bits.skip (buffer1 (bits.peek 12)).bits.toNat).peek 3 + 2)
              b5 i bi).1
            (i + ((bits.skip (buffer1 (bits.peek 12)).bits.toNat).peek 3 + 2)) bi) bi
          ((bits.skip (buffer1 (bits.peek 12)).bits.toNat).skip 3) ∧
      ∀ t, upd (emitRun ((bits.skip (buffer1 (bits.peek 12)).bits.toNat).peek 3 + 2)
              b5 i bi).1
            (i + ((bits.skip (buffer1 (bits.peek 12)).bits.toNat).peek 3 + 2)) bi t =
          if i ≤ t ∧
              t < i + ((bits.skip (buffer1 (bits.peek 12)).bits.toNat).peek 3 + 2) + 1
          then bi else b5 t) ∧
    ((buffer1 (bits.peek 12)).data = 0x24 →
      sit13CreateLoop buffer1 num (f + 1) i b5 bi bits =
        sit13CreateLoop buffer1 num f
          (i + ((bits.skip (buffer1 (bits.peek 12)).bits.toNat).peek 6 + 10) + 1)
          (upd (emitRun ((bits.skip (buffer1 (bits.peek 12)).bits.toNat).peek 6 + 10)
              b5 i bi).1
            (i + ((bits.skip (buffer1 (bits.peek 12)).bits.toNat).peek 6 + 10)) bi) bi
          ((bits.skip (buffer1 (bits.peek 12)).bits.toNat).skip 6) ∧
      ∀ t, upd (emitRun ((bits.skip (buffer1 (bits.peek 12)).bits.toNat).peek 6 + 10)
              b5 i bi).1
            (i + ((bits.skip (buffer1 (bits.peek 12)).bits.toNat).peek 6 + 10)) bi t =
          if i ≤ t ∧
              t < i + ((bits.skip (buffer1 (bits.peek 12)).bits.toNat).peek 6 + 10) + 1
          then bi else b5 t) := by
  refine ⟨?_, ?_, ?_⟩
  · intro hd
    simp only [sit13CreateLoop]
    rw [if_pos hi, hd]
    rw [if_neg (by decide), if_neg (by decide), if_neg (by decide), if_pos rfl]
  · intro hd
    constructor
    · simp only [sit13CreateLoop]
      rw [if_pos hi, hd]
      rw [if_neg (by decide), if_neg (by decide), if_neg (by decide),
        if_neg (by decide), if_pos rfl]
      rw [emitRun_snd]
    · intro t
      exact emitRun_upd_fst _ b5 i bi t
  · intro hd
    constructor
    · simp only [sit13CreateLoop]
      rw [if_pos hi, hd]
      rw [if_neg (by decide), if_neg (by decide), if_neg (by decide),
        if_neg (by decide), if_neg (by decide), if_pos rfl]
      rw [emitRun_snd]
    · intro t
      exact emitRun_upd_fst _ b5 i bi t

/-- C5 witness: symbol 34 (0x22) with next bit 0 does not emit an extra
copy; the loop continues at `i + 1` with a single store. -/
theorem c5_witness :
    sit13CreateLoop (fun _ => ⟨0x22, 2⟩) 5 (3 + 1) 0 (fun _ => 0) 7
        ⟨0, [true, true]⟩ =
      (if ((⟨0, [true, true]⟩ : Bits).skip
            ((fun (_ : Nat) => (⟨0x22, 2⟩ : SIT13Buffer)) ((⟨0, [true, true]⟩ : Bits).peek 12)).bits.toNat).peek 1 = 1 then
        sit13CreateLoop (fun _ => ⟨0x22, 2⟩) 5 3 (0 + 2)
          (upd (upd (fun _ => 0) 0 7) (0 + 1) 7) 7
          (((⟨0, [true, true]⟩ : Bits).skip
            ((fun (_ : Nat) => (⟨0x22, 2⟩ : SIT13Buffer)) ((⟨0, [true, true]⟩ : Bits).peek 12)).bits.toNat).skip 1)
       else
        sit13CreateLoop (fun _ => ⟨0x22, 2⟩) 5 3 (0 + 1) (upd (fun _ => 0) 0 7) 7
          (((⟨0, [true, true]⟩ : Bits).skip
            ((fun (_ : Nat) => (⟨0x22, 2⟩ : SIT13Buffer)) ((⟨0, [true, true]⟩ : Bits).peek 12)).bits.toNat).skip 1)) :=
  (c5_codelen_repeats (fun _ => ⟨0x22, 2⟩) 5 3 0 (fun _ => 0) 7
    ⟨0, [true, true]⟩ (by decide)).1 rfl

/-- C2: in the method-13 decode loop, a primary symbol `l` with
`0x100 ≤ l ≤ 0x13D` yields a match of length `l − 0x100 + 3`; symbol 0x13E
reads 10 extra bits and the length is `extra + 65`; 0x13F reads 15 extra
bits and the length is `extra + 65`; 0x140 ends decoding successfully; the
offset prefix `v` yields `raw = 0` for `v = 0` and
`raw = (1 << (v−1)) | (v−1 extra bits)` otherwise, the copy starting at
uint32 `wpos + 0x10000 − (raw + 1)` masked into the 64 KiB window, which
equals `(write_pos − (raw_offset + 1)) mod 65536` exactly. -/
theorem c2_method13_decode (b4 : Nat → SIT13Store) (b3 b3b b2 : Nat → SIT13Buffer)
    (wf cap fuel : Nat) (buf : Nat → SIT13Buffer) (window : Nat → Nat) (wpos : Nat)
    (bits : Bits) (out : List Nat) (l : Nat) (bits1 : Bits)
    (heos : bits.eos = false)
    (hdec : sit13DecodeSym b4 wf buf bits = some (l, bits1)) :
    (0x100 ≤ l → l < 0x13E →
      SIT13_Extract b4 b3 b3b b2 wf cap (fuel + 1) buf window wpos bits out =
        (match sit13DecodeOff b4 wf b2 bits1 with
         | none => none
         | some (v, bits2) =>
           SIT13_Extract b4 b3 b3b b2 wf cap fuel b3b
             (sit13Copy (l - 0x100 + 3) window wpos
               ((wpos + 0x10000 + (2 ^ 32 -
                 ((if v = 0 then 0 else (2 ^ (v - 1) ||| bits2.peek (v - 1)) % 2 ^ 32) +
                   1))) % 2 ^ 32) cap out).1
             (sit13Copy (l - 0x100 + 3) window wpos
               ((wpos + 0x10000 + (2 ^ 32 -
                 ((if v = 0 then 0 else (2 ^ (v - 1) ||| bits2.peek (v - 1)) % 2 ^ 32) +
                   1))) % 2 ^ 32) cap out).2.1
             (if v = 0 then bits2 else bits2.skip (v - 1))
             (sit13Copy (l - 0x100 + 3) window wpos
               ((wpos + 0x10000 + (2 ^ 32 -
                 ((if v = 0 then 0 else (2 ^ (v - 1) ||| bits2.peek (v - 1)) % 2 ^ 32) +
                   1))) % 2 ^ 32) cap out).2.2)) ∧
    (l = 0x13E →
      SIT13_Extract b4 b3 b3b b2 wf cap (fuel + 1) buf window wpos bits out =
        (match sit13DecodeOff b4 wf b2 (bits1.skip 10) with
         | none => none
         | some (v, bits2) =>
           SIT13_Extract b4 b3 b3b b2 wf cap fuel b3b
             (sit13Copy (bits1.peek 10 + 65) window wpos
               ((wpos + 0x10000 + (2 ^ 32 -
                 ((if v = 0 then 0 else (2 ^ (v - 1) ||| bits2.peek (v - 1)) % 2 ^ 32) +
                   1))) % 2 ^ 32) cap out).1
             (sit13Copy (bits1.peek 10 + 65) window wpos
               ((wpos + 0x10000 + (2 ^ 32 -
                 ((if v = 0 then 0 else (2 ^ (v - 1) ||| bits2.peek (v - 1)) % 2 ^ 32) +
                   1))) % 2 ^ 32) cap out).2.1
             (if v = 0 then bits2 else bits2.skip (v - 1))
             (sit13Copy (bits1.peek 10 + 65) window wpos
               ((wpos + 0x10000 + (2 ^ 32 -
                 ((if v = 0 then 0 else (2 ^ (v - 1) ||| bits2.peek (v - 1)) % 2 ^ 32) +
                   1))) % 2 ^ 32) cap out).2.2)) ∧
    (l = 0x13F →
      SIT13_Extract b4 b3 b3b b2 wf cap (fuel + 1) buf window wpos bits out =
        (match sit13DecodeOff b4 wf b2 (bits1.skip 15) with
         | none => none
         | some (v, bits2) =>
           SIT13_Extract b4 b3 b3b b2 wf cap fuel b3b
             (sit13Copy (bits1.peek 15 + 65) window wpos
               ((wpos + 0x10000 + (2 ^ 32 -
                 ((if v = 0 then 0 else (2 ^ (v - 1) ||| bits2.peek (v - 1)) % 2 ^ 32) +
                   1))) % 2 ^ 32) cap out).1
             (sit13Copy (bits1.peek 15 + 65) window wpos
               ((wpos + 0x10000 + (2 ^ 32 -
                 ((if v = 0 then 0 else (2 ^ (v - 1) ||| bits2.peek (v - 1)) % 2 ^ 32) +
                   1))) % 2 ^ 32) cap out).2.1
             (if v = 0 then bits2 else bits2.skip (v - 1))
             (sit13Copy (bits1.peek 15 + 65) window wpos
               ((wpos + 0x10000 + (2 ^ 32 -
                 ((if v = 0 then 0 else (2 ^ (v - 1) ||| bits2.peek (v - 1)) % 2 ^ 32) +
                   1))) % 2 ^ 32) cap out).2.2)) ∧
    (l = 0x140 →
      SIT13_Extract b4 b3 b3b b2 wf cap (fuel + 1) buf window wpos bits out =
        some (true, out)) ∧
    (∀ w k : Nat, k < 2 ^ 32 →
      ((((w + 0x10000 + (2 ^ 32 - (k + 1))) % 2 ^ 32) % 0x10000 : Nat) : Int) =
        ((w : Int) - (k + 1)) % 0x10000) ∧
    (∀ (size : Nat) (w2 : Nat → Nat) (p2 l2 c2 : Nat) (o2 : List Nat),
      sit13Copy (size + 1) w2 p2 l2 c2 o2 =
        sit13Copy size (upd w2 p2 (w2 (l2 % 0x10000))) ((p2 + 1) % 0x10000)
          (l2 % 0x10000 + 1) c2 (wrCap c2 o2 (w2 (l2 % 0x10000)))) := by
  refine ⟨?_, ?_, ?_, ?_, ?_, ?_⟩
  · intro hl1 hl2
    simp only [SIT13_Extract]
    rw [if_neg (by simp [heos])]
    simp only [hdec]
    rw [if_neg (show ¬(l < 0x100) from by omega)]
    rw [if_neg (show ¬(l = 0x140) from by omega)]
    rw [if_pos (show l < 0x13E from hl2), if_pos (show l < 0x13E from hl2)]
  · intro hl
    simp only [SIT13_Extract]
    rw [if_neg (by simp [heos])]
    simp only [hdec, hl]
    rfl
  · intro hl
    simp only [SIT13_Extract]
    rw [if_neg (by simp [heos])]
    simp only [hdec, hl]
    rfl
  · intro hl
    simp only [SIT13_Extract]
    rw [if_neg (by simp [heos])]
    simp only [hdec, hl]
    rfl
  · intro w k h
    have hdvd : (0x10000 : Nat) ∣ 2 ^ 32 := by norm_num
    rw [Nat.mod_mod_of_dvd _ hdvd]
    omega
  · intro size w2 p2 l2 c2 o2
    rfl

/-- C2 witness: a primary table whose every slot decodes symbol 0x140 in
one bit ends decoding at once with success. -/
theorem c2_witness :
    SIT13_Extract (fun _ => ⟨0, 0, 0⟩) (fun _ => ⟨0, 0⟩) (fun _ => ⟨0, 0⟩)
        (fun _ => ⟨0, 0⟩) 0 0 (0 + 1) (fun _ => ⟨0x140, 1⟩) (fun _ => 0) 0
        ⟨0, [false]⟩ [] = some (true, []) :=
  (c2_method13_decode (fun _ => ⟨0, 0, 0⟩) (fun _ => ⟨0, 0⟩) (fun _ => ⟨0, 0⟩)
    (fun _ => ⟨0, 0⟩) 0 0 0 (fun _ => ⟨0x140, 1⟩) (fun _ => 0) 0 ⟨0, [false]⟩ []
    0x140 ⟨1, []⟩ (by decide) (by decide)).2.2.2.1 rfl
